import Mathlib

/-!
Verification of the QEMU PowerPC Book3s/POWER8 PMU emulation helpers.

This file shallowly embeds the counter-emulation engine found in
`target/ppc/pmu_book3s_helper.c` (namespace `B3S`) and
`target/ppc/power8_pmu.c` (namespace `P8`) and proves properties of the
freeze/unfreeze synchronization, instruction-batch accounting, overflow
timer scheduling and the overflow timer callback.

The PMU state is the subset of `CPUPPCState` these helpers touch: the six
PMC registers (`SPR_POWER_PMC1` .. `SPR_POWER_PMC6`), `MMCR0`, `MMCR1`,
`CTRL`, `pmu_base_time` and the single pending overflow timer
(`pmu_intr_timer`), modelled as an optional deadline. The virtual clock
value `now` (`qemu_clock_get_ns(QEMU_CLOCK_VIRTUAL)`) is passed to each
helper as an explicit argument, and `ppc_set_irq` is modelled as a boolean
output. All machine integers are `Nat` with wrap-around applied at 2^64
where the C performs `uint64_t` arithmetic.
-/

/-- 2^64, the modulus of `uint64_t` arithmetic. -/
def U64MOD : Nat := 18446744073709551616

/-- 2^64 - 1: the all-ones `uint64_t`, used to model C's `~mask`. -/
def U64FULL : Nat := 18446744073709551615

/-- Truncation to `uint64_t`. -/
def u64 (n : Nat) : Nat := n % U64MOD

/-- `uint64_t` subtraction `a - b` with wrap-around. -/
def u64sub (a b : Nat) : Nat := (a % U64MOD + (U64MOD - b % U64MOD)) % U64MOD

/-- QEMU's `muldiv64(a, b, c)`: `(a * b) / c` computed with a 128-bit
intermediate and the quotient returned as `uint64_t`. -/
def muldiv64 (a b c : Nat) : Nat := u64 (a * b / c)

/-!
SPR numbers and register bit masks. These constants live in QEMU's
`target/ppc/cpu.h`, which is not part of the provided sources; the values
below are the PowerISA v3.1 / QEMU definitions (`PPC_BIT(n) = 2^(63-n)`).
The helpers only rely on `SPR_POWER_PMC1..6` being consecutive and on the
masks selecting pairwise disjoint bit fields.
-/

def SPR_POWER_PMC1 : Nat := 771
def SPR_POWER_PMC2 : Nat := 772
def SPR_POWER_PMC3 : Nat := 773
def SPR_POWER_PMC4 : Nat := 774
def SPR_POWER_PMC5 : Nat := 775
def SPR_POWER_PMC6 : Nat := 776

/-- `MMCR0_FC = PPC_BIT(32)`: freeze counters. -/
def MMCR0_FC : Nat := 0x80000000

/-- `MMCR0_PMAE = PPC_BIT(37)`: performance monitor alert enable. -/
def MMCR0_PMAE : Nat := 0x4000000

/-- `MMCR0_FCECE = PPC_BIT(38)`: freeze counters on enabled condition or event. -/
def MMCR0_FCECE : Nat := 0x2000000

/-- `MMCR0_EBE = PPC_BIT(43)`: event based branch enable. -/
def MMCR0_EBE : Nat := 0x100000

/-- `MMCR0_PMC1CE = PPC_BIT(48)`: PMC1 counter negative condition enable. -/
def MMCR0_PMC1CE : Nat := 0x8000

/-- `MMCR0_PMCjCE = PPC_BIT(49)`: PMCj counter negative condition enable. -/
def MMCR0_PMCjCE : Nat := 0x4000

/-- `MMCR0_PMAO = PPC_BIT(56)`: performance monitor alert occurred. -/
def MMCR0_PMAO : Nat := 0x80

/-- `MMCR0_FC14 = PPC_BIT(58)`: freeze counters 1-4. -/
def MMCR0_FC14 : Nat := 0x20

/-- `MMCR0_FC56 = PPC_BIT(59)`: freeze counters 5-6. -/
def MMCR0_FC56 : Nat := 0x10

/-- `MMCR1_PMC1SEL = PPC_BITMASK(32, 39)` with shift `63 - 39 = 24`. -/
def MMCR1_PMC1SEL : Nat := 0xFF000000

def MMCR1_PMC1SEL_SHIFT : Nat := 24

/-- `MMCR1_PMC2SEL = PPC_BITMASK(40, 47)` with shift `63 - 47 = 16`. -/
def MMCR1_PMC2SEL : Nat := 0xFF0000

def MMCR1_PMC2SEL_SHIFT : Nat := 16

/-- `MMCR1_PMC3SEL = PPC_BITMASK(48, 55)` with shift `63 - 55 = 8`. -/
def MMCR1_PMC3SEL : Nat := 0xFF00

def MMCR1_PMC3SEL_SHIFT : Nat := 8

/-- `MMCR1_PMC4SEL = PPC_BITMASK(56, 63)` with shift `0`. -/
def MMCR1_PMC4SEL : Nat := 0xFF

/-- `CTRL_RUN = PPC_BIT(63)`: the run latch bit of the CTRL register. -/
def CTRL_RUN : Nat := 1

/-- `COUNTER_NEGATIVE_VAL 0x80000000`: the counter overflow threshold. -/
def COUNTER_NEGATIVE_VAL : Nat := 0x80000000

/-- The portion of `CPUPPCState` used by the PMU helpers. `timer` models
`env->pmu_intr_timer` as `some deadline` when armed and `none` when
deleted (`timer_del`). -/
structure PMUState where
  pmc1 : Nat
  pmc2 : Nat
  pmc3 : Nat
  pmc4 : Nat
  pmc5 : Nat
  pmc6 : Nat
  mmcr0 : Nat
  mmcr1 : Nat
  ctrl : Nat
  pmu_base_time : Nat
  timer : Option Nat
  deriving Repr, DecidableEq

/-- Read `env->spr[sprn]` for the six PMC SPRs. -/
def sprGet (env : PMUState) (sprn : Nat) : Nat :=
  if sprn = SPR_POWER_PMC1 then env.pmc1
  else if sprn = SPR_POWER_PMC2 then env.pmc2
  else if sprn = SPR_POWER_PMC3 then env.pmc3
  else if sprn = SPR_POWER_PMC4 then env.pmc4
  else if sprn = SPR_POWER_PMC5 then env.pmc5
  else if sprn = SPR_POWER_PMC6 then env.pmc6
  else 0

/-- Write `env->spr[sprn] = v` for the six PMC SPRs. -/
def sprSet (env : PMUState) (sprn v : Nat) : PMUState :=
  if sprn = SPR_POWER_PMC1 then { env with pmc1 := v }
  else if sprn = SPR_POWER_PMC2 then { env with pmc2 := v }
  else if sprn = SPR_POWER_PMC3 then { env with pmc3 := v }
  else if sprn = SPR_POWER_PMC4 then { env with pmc4 := v }
  else if sprn = SPR_POWER_PMC5 then { env with pmc5 := v }
  else if sprn = SPR_POWER_PMC6 then { env with pmc6 := v }
  else env

namespace B3S

/-- `get_cycles` in `pmu_book3s_helper.c`: with `PPC_CPU_FREQ` of 1GHz one
nanosecond is one cycle, so the function is the identity. -/
def get_cycles (time_delta : Nat) : Nat := time_delta

/-- `get_PMC_event` in `pmu_book3s_helper.c`: resolve a PMC's event code
from MMCR1. PMC4's 0xFA is remapped to 0x2, PMC5 and PMC6 are hard-wired
to 0x2 and 0x1E. -/
def get_PMC_event (env : PMUState) (sprn : Nat) : Nat :=
  if sprn = SPR_POWER_PMC1 then
    (env.mmcr1 &&& MMCR1_PMC1SEL) >>> MMCR1_PMC1SEL_SHIFT
  else if sprn = SPR_POWER_PMC2 then
    (env.mmcr1 &&& MMCR1_PMC2SEL) >>> MMCR1_PMC2SEL_SHIFT
  else if sprn = SPR_POWER_PMC3 then
    (env.mmcr1 &&& MMCR1_PMC3SEL) >>> MMCR1_PMC3SEL_SHIFT
  else if sprn = SPR_POWER_PMC4 then
    let event := env.mmcr1 &&& MMCR1_PMC4SEL
    if event = 0xFA then 0x2 else event
  else if sprn = SPR_POWER_PMC5 then 0x2
  else if sprn = SPR_POWER_PMC6 then 0x1E
  else 0

/-- `update_PMC_PM_INST_CMPL` in `pmu_book3s_helper.c`: the body is a bare
`return` (the increment is commented out), so it is the identity. -/
def update_PMC_PM_INST_CMPL (env : PMUState) (_sprn : Nat) : PMUState := env

/-- `update_PMC_PM_CYC`: add the elapsed cycles to the register. -/
def update_PMC_PM_CYC (env : PMUState) (sprn time_delta : Nat) : PMUState :=
  sprSet env sprn (u64 (sprGet env sprn + get_cycles time_delta))

/-- `get_stall_ratio`: 25 for event 0xA, 5 for 0x6/0x16/0x1C, 0 otherwise. -/
def get_stall_ratio (stall_event : Nat) : Nat :=
  if stall_event = 0xA then 25
  else if stall_event = 0x6 then 5
  else if stall_event = 0x16 then 5
  else if stall_event = 0x1C then 5
  else 0

/-- `update_PMC_PM_STALL`: add `muldiv64(cycles, ratio, 100)` to the register. -/
def update_PMC_PM_STALL (env : PMUState) (sprn icount_delta stall_event : Nat) :
    PMUState :=
  let stall_ratio := get_stall_ratio stall_event
  let cycles := muldiv64 (get_cycles icount_delta) stall_ratio 100
  sprSet env sprn (u64 (sprGet env sprn + cycles))

/-- `update_programmable_PMC_reg`: dispatch on the resolved event code. -/
def update_programmable_PMC_reg (env : PMUState) (sprn icount_delta : Nat) :
    PMUState :=
  let event := get_PMC_event env sprn
  if event = 0x2 then update_PMC_PM_INST_CMPL env sprn
  else if event = 0x1E then update_PMC_PM_CYC env sprn icount_delta
  else if event = 0xA ∨ event = 0x6 ∨ event = 0x16 ∨ event = 0x1C then
    update_PMC_PM_STALL env sprn icount_delta event
  else env

/-- `update_PMCs` in `pmu_book3s_helper.c`: flush PMC1-4 if the FC14 group
is running and PMC5/PMC6 if the FC56 group is running. -/
def update_PMCs (env : PMUState) (time_delta : Nat) : PMUState :=
  let PMC14_running := (env.mmcr0 &&& MMCR0_FC14) = 0
  let PMC56_running := (env.mmcr0 &&& MMCR0_FC56) = 0
  let env1 :=
    if PMC14_running then
      update_programmable_PMC_reg
        (update_programmable_PMC_reg
          (update_programmable_PMC_reg
            (update_programmable_PMC_reg env SPR_POWER_PMC1 time_delta)
            SPR_POWER_PMC2 time_delta)
          SPR_POWER_PMC3 time_delta)
        SPR_POWER_PMC4 time_delta
    else env
  if PMC56_running then
    update_PMC_PM_CYC (update_PMC_PM_INST_CMPL env1 SPR_POWER_PMC5)
      SPR_POWER_PMC6 time_delta
  else env1

/-- `get_CYC_timeout`: 0 when already at/above the threshold, otherwise the
remaining cycles (= nanoseconds) to the threshold. -/
def get_CYC_timeout (env : PMUState) (sprn : Nat) : Int :=
  if sprGet env sprn ≥ COUNTER_NEGATIVE_VAL then 0
  else (COUNTER_NEGATIVE_VAL : Int) - (sprGet env sprn : Int)

/-- `get_stall_timeout`: remaining cycles scaled by `100 / ratio`, converted
to nanoseconds by `muldiv64(.., NANOSECONDS_PER_SECOND, PPC_CPU_FREQ)`
(both constants are 10^9, so the conversion is the identity). -/
def get_stall_timeout (env : PMUState) (sprn stall_event : Nat) : Int :=
  if sprGet env sprn ≥ COUNTER_NEGATIVE_VAL then 0
  else
    let remaining_cyc := COUNTER_NEGATIVE_VAL - sprGet env sprn
    let stall_multiplier := 100 / get_stall_ratio stall_event
    let remaining_cyc := u64 (remaining_cyc * stall_multiplier)
    (muldiv64 remaining_cyc 1000000000 1000000000 : Int)

/-- `pmc_counter_negative_enabled` in `pmu_book3s_helper.c`: the counter
negative condition enable bit for the PMC, conjoined with its freeze
group being unfrozen. -/
def pmc_counter_negative_enabled (env : PMUState) (sprn : Nat) : Bool :=
  let PMC14_running := (env.mmcr0 &&& MMCR0_FC14) = 0
  let PMC56_running := (env.mmcr0 &&& MMCR0_FC56) = 0
  if sprn = SPR_POWER_PMC1 then
    ((env.mmcr0 &&& MMCR0_PMC1CE) ≠ 0) && PMC14_running
  else if sprn = SPR_POWER_PMC2 ∨ sprn = SPR_POWER_PMC3 ∨
          sprn = SPR_POWER_PMC4 then
    ((env.mmcr0 &&& MMCR0_PMCjCE) ≠ 0) && PMC14_running
  else if sprn = SPR_POWER_PMC5 ∨ sprn = SPR_POWER_PMC6 then
    ((env.mmcr0 &&& MMCR0_PMCjCE) ≠ 0) && PMC56_running
  else false

/-- `get_counter_neg_timeout` in `pmu_book3s_helper.c`: -1 when the counter
negative condition is not enabled, 0 when the register is already at/above
the threshold, otherwise a timeout for cycle and stall events on PMC1-4
and for PMC6; -1 for everything else. -/
def get_counter_neg_timeout (env : PMUState) (sprn : Nat) : Int :=
  if ¬pmc_counter_negative_enabled env sprn then -1
  else if sprGet env sprn ≥ COUNTER_NEGATIVE_VAL then 0
  else if sprn = SPR_POWER_PMC1 ∨ sprn = SPR_POWER_PMC2 ∨
          sprn = SPR_POWER_PMC3 ∨ sprn = SPR_POWER_PMC4 then
    let event := get_PMC_event env sprn
    if event = 0x1E then get_CYC_timeout env sprn
    else if event = 0xA ∨ event = 0x6 ∨ event = 0x16 ∨ event = 0x1C then
      get_stall_timeout env sprn event
    else -1
  else if sprn = SPR_POWER_PMC6 then get_CYC_timeout env sprn
  else -1

/-- One iteration of the minimum-timeout scan in `set_PMU_excp_timer`:
skip -1, short-circuit to 0, otherwise keep the smaller timeout. Folding
this over PMC1..PMC6 equals the C loop with its `break` on 0. -/
def excp_timer_step (acc curr : Int) : Int :=
  if curr = -1 then acc
  else if curr = 0 then 0
  else if acc = -1 ∨ acc > curr then curr
  else acc

/-- `set_PMU_excp_timer` in `pmu_book3s_helper.c`: scan PMC1..PMC6 for the
smallest counter negative timeout; arm `env->pmu_intr_timer` at
`now + timeout` unless no PMC produced a timeout. -/
def set_PMU_excp_timer (env : PMUState) (now : Nat) : PMUState :=
  let timeout :=
    excp_timer_step
      (excp_timer_step
        (excp_timer_step
          (excp_timer_step
            (excp_timer_step
              (excp_timer_step (-1) (get_counter_neg_timeout env SPR_POWER_PMC1))
              (get_counter_neg_timeout env SPR_POWER_PMC2))
            (get_counter_neg_timeout env SPR_POWER_PMC3))
          (get_counter_neg_timeout env SPR_POWER_PMC4))
        (get_counter_neg_timeout env SPR_POWER_PMC5))
      (get_counter_neg_timeout env SPR_POWER_PMC6)
  if timeout = -1 then env
  else { env with timer := some (now + timeout.toNat) }

/-- `cpu_ppc_pmu_timer_cb` in `pmu_book3s_helper.c`. The boolean output
models the unconditional `ppc_set_irq(cpu, PPC_INTERRUPT_PMC, 1)` at the
end of the callback. -/
def cpu_ppc_pmu_timer_cb (env : PMUState) (now : Nat) : PMUState × Bool :=
  let time_delta := u64sub now env.pmu_base_time
  if (env.mmcr0 &&& MMCR0_EBE) = 0 then (env, false)
  else
    let env1 := update_PMCs env time_delta
    let env2 :=
      if (env1.mmcr0 &&& MMCR0_FCECE) ≠ 0 then
        { env1 with mmcr0 := (env1.mmcr0 &&& (U64FULL ^^^ MMCR0_FCECE)) ||| MMCR0_FC }
      else env1
    let env3 :=
      if (env2.mmcr0 &&& MMCR0_PMAE) ≠ 0 then
        { env2 with mmcr0 := (env2.mmcr0 &&& (U64FULL ^^^ MMCR0_PMAE)) ||| MMCR0_PMAO }
      else env2
    (env3, true)

/-- `counter_negative_cond_enabled`: either counter negative condition
enable bit is set in MMCR0. -/
def counter_negative_cond_enabled (mmcr0 : Nat) : Bool :=
  (mmcr0 &&& (MMCR0_PMC1CE ||| MMCR0_PMCjCE)) ≠ 0

/-- `helper_store_mmcr0` in `pmu_book3s_helper.c`: store the new MMCR0 and,
on an FC bit transition, either flush the PMCs and delete the pending
timer (freeze) or reset `pmu_base_time` and re-arm the overflow timer
(unfreeze). -/
def helper_store_mmcr0 (env : PMUState) (value now : Nat) : PMUState :=
  let curr_FC : Bool := (env.mmcr0 &&& MMCR0_FC) ≠ 0
  let new_FC : Bool := (u64 value &&& MMCR0_FC) ≠ 0
  let env := { env with mmcr0 := u64 value }
  if curr_FC ≠ new_FC then
    if curr_FC = false then
      let time_delta := u64sub now env.pmu_base_time
      let env := update_PMCs env time_delta
      { env with timer := none }
    else
      let env := { env with pmu_base_time := now }
      if counter_negative_cond_enabled env.mmcr0 then
        set_PMU_excp_timer env now
      else env
  else env

/-- `helper_store_pmc` in `pmu_book3s_helper.c`: direct overwrite when the
PMU is frozen; otherwise flush, overwrite, delete the timer, re-base and
re-arm. -/
def helper_store_pmc (env : PMUState) (sprn value now : Nat) : PMUState :=
  let pmu_frozen : Bool := (env.mmcr0 &&& MMCR0_FC) ≠ 0
  if pmu_frozen then sprSet env sprn (u64 value)
  else
    let time_delta := u64sub now env.pmu_base_time
    let env := update_PMCs env time_delta
    let env := sprSet env sprn (u64 value)
    let env := { env with timer := none }
    let env := { env with pmu_base_time := now }
    if counter_negative_cond_enabled env.mmcr0 then
      set_PMU_excp_timer env now
    else env

/-- `pmc_is_running` in `pmu_book3s_helper.c`. -/
def pmc_is_running (env : PMUState) (sprn : Nat) : Bool :=
  if sprn < SPR_POWER_PMC5 then (env.mmcr0 &&& MMCR0_FC14) = 0
  else (env.mmcr0 &&& MMCR0_FC56) = 0

/-- `pmc_counting_insns` in `pmu_book3s_helper.c`. -/
def pmc_counting_insns (env : PMUState) (sprn : Nat) : Bool :=
  if ¬pmc_is_running env sprn then false
  else if sprn = SPR_POWER_PMC5 then true
  else
    let event := get_PMC_event env sprn
    if sprn = SPR_POWER_PMC1 then
      event = 0x2 || event = 0xF2 || event = 0xFE
    else if sprn = SPR_POWER_PMC2 ∨ sprn = SPR_POWER_PMC3 then
      event = 0x2
    else if sprn = SPR_POWER_PMC4 then
      event = 0x2 || event = 0xFA
    else false

/-- One iteration of the loop in `helper_insns_inc`: add `num_insns` to a
counting PMC and clamp it to the threshold when the counter negative
condition is enabled, flagging the overflow. -/
def insns_inc_step (st : PMUState × Bool) (sprn num_insns : Nat) :
    PMUState × Bool :=
  let env := st.1
  if pmc_counting_insns env sprn then
    let env := sprSet env sprn (u64 (sprGet env sprn + num_insns))
    if sprGet env sprn ≥ COUNTER_NEGATIVE_VAL ∧
        pmc_counter_negative_enabled env sprn then
      (sprSet env sprn COUNTER_NEGATIVE_VAL, true)
    else (env, st.2)
  else (env, st.2)

/-- The PMC1..PMC5 loop of `helper_insns_inc`. -/
def insns_inc_loop (env : PMUState) (num_insns : Nat) : PMUState × Bool :=
  insns_inc_step
    (insns_inc_step
      (insns_inc_step
        (insns_inc_step
          (insns_inc_step (env, false) SPR_POWER_PMC1 num_insns)
          SPR_POWER_PMC2 num_insns)
        SPR_POWER_PMC3 num_insns)
      SPR_POWER_PMC4 num_insns)
    SPR_POWER_PMC5 num_insns

/-- `helper_insns_inc` in `pmu_book3s_helper.c`: run the loop, and when any
counter overflowed delete the pending timer and invoke the timer callback
directly. The boolean output is the callback's `ppc_set_irq`. -/
def helper_insns_inc (env : PMUState) (num_insns now : Nat) :
    PMUState × Bool :=
  let st := insns_inc_loop env num_insns
  if st.2 then
    let env := { st.1 with timer := none }
    cpu_ppc_pmu_timer_cb env now
  else (st.1, false)

end B3S

namespace P8

/-- `get_PMC_event` in `power8_pmu.c`: like the Book3s variant but PMC4's
selection field is returned unshifted and without the 0xFA remap. -/
def get_PMC_event (env : PMUState) (sprn : Nat) : Nat :=
  if sprn = SPR_POWER_PMC1 then
    (env.mmcr1 &&& MMCR1_PMC1SEL) >>> MMCR1_PMC1SEL_SHIFT
  else if sprn = SPR_POWER_PMC2 then
    (env.mmcr1 &&& MMCR1_PMC2SEL) >>> MMCR1_PMC2SEL_SHIFT
  else if sprn = SPR_POWER_PMC3 then
    (env.mmcr1 &&& MMCR1_PMC3SEL) >>> MMCR1_PMC3SEL_SHIFT
  else if sprn = SPR_POWER_PMC4 then env.mmcr1 &&& MMCR1_PMC4SEL
  else if sprn = SPR_POWER_PMC5 then 0x2
  else if sprn = SPR_POWER_PMC6 then 0x1E
  else 0

/-- `pmc_is_running` in `power8_pmu.c`. -/
def pmc_is_running (env : PMUState) (sprn : Nat) : Bool :=
  if sprn < SPR_POWER_PMC5 then (env.mmcr0 &&& MMCR0_FC14) = 0
  else (env.mmcr0 &&& MMCR0_FC56) = 0

/-- `update_PMC_PM_CYC` in `power8_pmu.c` (1 ns = 1 cycle). -/
def update_PMC_PM_CYC (env : PMUState) (sprn time_delta : Nat) : PMUState :=
  sprSet env sprn (u64 (sprGet env sprn + time_delta))

/-- `update_programmable_PMC_reg` in `power8_pmu.c`: only cycle events
advance on a flush — 0xF0 on PMC1 only, 0x1E on any of PMC1-4. -/
def update_programmable_PMC_reg (env : PMUState) (sprn time_delta : Nat) :
    PMUState :=
  let event := get_PMC_event env sprn
  if event = 0xF0 then
    if sprn = SPR_POWER_PMC1 then update_PMC_PM_CYC env sprn time_delta
    else env
  else if event = 0x1E then update_PMC_PM_CYC env sprn time_delta
  else env

/-- `update_PMCs` in `power8_pmu.c`: flush PMC1-4 when the FC14 group is
running and PMC6 when the FC56 group is running. -/
def update_PMCs (env : PMUState) (time_delta : Nat) : PMUState :=
  let PMC14_running := (env.mmcr0 &&& MMCR0_FC14) = 0
  let PMC6_running := (env.mmcr0 &&& MMCR0_FC56) = 0
  let env1 :=
    if PMC14_running then
      update_programmable_PMC_reg
        (update_programmable_PMC_reg
          (update_programmable_PMC_reg
            (update_programmable_PMC_reg env SPR_POWER_PMC1 time_delta)
            SPR_POWER_PMC2 time_delta)
          SPR_POWER_PMC3 time_delta)
        SPR_POWER_PMC4 time_delta
    else env
  if PMC6_running then update_PMC_PM_CYC env1 SPR_POWER_PMC6 time_delta
  else env1

/-- `get_CYC_timeout` in `power8_pmu.c`. -/
def get_CYC_timeout (env : PMUState) (sprn : Nat) : Int :=
  if sprGet env sprn ≥ COUNTER_NEGATIVE_VAL then 0
  else (COUNTER_NEGATIVE_VAL : Int) - (sprGet env sprn : Int)

/-- `pmc_counter_negative_enabled` in `power8_pmu.c`: only the condition
enable bits, with no freeze-group check. -/
def pmc_counter_negative_enabled (env : PMUState) (sprn : Nat) : Bool :=
  if sprn = SPR_POWER_PMC1 then (env.mmcr0 &&& MMCR0_PMC1CE) ≠ 0
  else if sprn = SPR_POWER_PMC2 ∨ sprn = SPR_POWER_PMC3 ∨
          sprn = SPR_POWER_PMC4 ∨ sprn = SPR_POWER_PMC5 ∨
          sprn = SPR_POWER_PMC6 then
    (env.mmcr0 &&& MMCR0_PMCjCE) ≠ 0
  else false

/-- `get_counter_neg_timeout` in `power8_pmu.c`: cycle events only (0xF0 on
PMC1, 0x1E on PMC1-4, PMC6 hard-wired). -/
def get_counter_neg_timeout (env : PMUState) (sprn : Nat) : Int :=
  if ¬pmc_counter_negative_enabled env sprn then -1
  else if sprGet env sprn ≥ COUNTER_NEGATIVE_VAL then 0
  else if sprn = SPR_POWER_PMC1 ∨ sprn = SPR_POWER_PMC2 ∨
          sprn = SPR_POWER_PMC3 ∨ sprn = SPR_POWER_PMC4 then
    let event := get_PMC_event env sprn
    if event = 0xF0 then
      if sprn = SPR_POWER_PMC1 then get_CYC_timeout env sprn else -1
    else if event = 0x1E then get_CYC_timeout env sprn
    else -1
  else if sprn = SPR_POWER_PMC6 then get_CYC_timeout env sprn
  else -1

/-- `set_PMU_excp_timer` in `power8_pmu.c`: scan PMC1-4 and PMC6 (PMC5
never counts cycles) for the smallest timeout and arm the timer. -/
def set_PMU_excp_timer (env : PMUState) (now : Nat) : PMUState :=
  let timeout :=
    B3S.excp_timer_step
      (B3S.excp_timer_step
        (B3S.excp_timer_step
          (B3S.excp_timer_step
            (B3S.excp_timer_step (-1) (get_counter_neg_timeout env SPR_POWER_PMC1))
            (get_counter_neg_timeout env SPR_POWER_PMC2))
          (get_counter_neg_timeout env SPR_POWER_PMC3))
        (get_counter_neg_timeout env SPR_POWER_PMC4))
      (get_counter_neg_timeout env SPR_POWER_PMC6)
  if timeout = -1 then env
  else { env with timer := some (now + timeout.toNat) }

/-- `cpu_ppc_pmu_timer_cb` in `power8_pmu.c` (same shape as the Book3s
variant, with this file's `update_PMCs`). -/
def cpu_ppc_pmu_timer_cb (env : PMUState) (now : Nat) : PMUState × Bool :=
  let time_delta := u64sub now env.pmu_base_time
  if (env.mmcr0 &&& MMCR0_EBE) = 0 then (env, false)
  else
    let env1 := update_PMCs env time_delta
    let env2 :=
      if (env1.mmcr0 &&& MMCR0_FCECE) ≠ 0 then
        { env1 with mmcr0 := (env1.mmcr0 &&& (U64FULL ^^^ MMCR0_FCECE)) ||| MMCR0_FC }
      else env1
    let env3 :=
      if (env2.mmcr0 &&& MMCR0_PMAE) ≠ 0 then
        { env2 with mmcr0 := (env2.mmcr0 &&& (U64FULL ^^^ MMCR0_PMAE)) ||| MMCR0_PMAO }
      else env2
    (env3, true)

/-- `counter_negative_cond_enabled` in `power8_pmu.c`. -/
def counter_negative_cond_enabled (mmcr0 : Nat) : Bool :=
  (mmcr0 &&& (MMCR0_PMC1CE ||| MMCR0_PMCjCE)) ≠ 0

/-- `helper_store_mmcr0` in `power8_pmu.c`: as the Book3s variant except
the freeze direction does not delete the pending timer. -/
def helper_store_mmcr0 (env : PMUState) (value now : Nat) : PMUState :=
  let curr_FC : Bool := (env.mmcr0 &&& MMCR0_FC) ≠ 0
  let new_FC : Bool := (u64 value &&& MMCR0_FC) ≠ 0
  let env := { env with mmcr0 := u64 value }
  if curr_FC ≠ new_FC then
    if curr_FC = false then
      let time_delta := u64sub now env.pmu_base_time
      update_PMCs env time_delta
    else
      let env := { env with pmu_base_time := now }
      if counter_negative_cond_enabled env.mmcr0 then
        set_PMU_excp_timer env now
      else env
  else env

/-- `pmc_counting_insns` in `power8_pmu.c` (the event is passed in by the
caller; 0xFA counts as an instruction event on PMC2-4). -/
def pmc_counting_insns (env : PMUState) (sprn event : Nat) : Bool :=
  if ¬pmc_is_running env sprn then false
  else if sprn = SPR_POWER_PMC5 then true
  else if sprn = SPR_POWER_PMC1 then
    event = 0x2 || event = 0xF2 || event = 0xFE
  else if sprn = SPR_POWER_PMC2 ∨ sprn = SPR_POWER_PMC3 ∨
          sprn = SPR_POWER_PMC4 then
    event = 0x2 || event = 0xFA
  else false

/-- One iteration of the loop in `power8_pmu.c`'s `helper_insns_inc`:
PMC4 with event 0xFA is gated by the CTRL run latch bit. -/
def insns_inc_step (env : PMUState) (sprn num_insns : Nat) : PMUState :=
  let event := get_PMC_event env sprn
  if pmc_counting_insns env sprn event then
    if sprn = SPR_POWER_PMC4 ∧ event = 0xFA then
      if (env.ctrl &&& CTRL_RUN) ≠ 0 then
        sprSet env SPR_POWER_PMC4 (u64 (sprGet env SPR_POWER_PMC4 + num_insns))
      else env
    else sprSet env sprn (u64 (sprGet env sprn + num_insns))
  else env

/-- `helper_insns_inc` in `power8_pmu.c`: add `num_insns` to every PMC in
PMC1..PMC5 that is counting instructions (no overflow clamping in this
variant). -/
def helper_insns_inc (env : PMUState) (num_insns : Nat) : PMUState :=
  insns_inc_step
    (insns_inc_step
      (insns_inc_step
        (insns_inc_step
          (insns_inc_step env SPR_POWER_PMC1 num_insns)
          SPR_POWER_PMC2 num_insns)
        SPR_POWER_PMC3 num_insns)
      SPR_POWER_PMC4 num_insns)
    SPR_POWER_PMC5 num_insns

/-- `helper_store_pmc` in `power8_pmu.c`: direct overwrite when frozen;
otherwise flush, overwrite, delete the timer, re-base and re-arm. -/
def helper_store_pmc (env : PMUState) (sprn value now : Nat) : PMUState :=
  let pmu_frozen : Bool := (env.mmcr0 &&& MMCR0_FC) ≠ 0
  if pmu_frozen then sprSet env sprn (u64 value)
  else
    let time_delta := u64sub now env.pmu_base_time
    let env := update_PMCs env time_delta
    let env := sprSet env sprn (u64 value)
    let env := { env with timer := none }
    let env := { env with pmu_base_time := now }
    if counter_negative_cond_enabled env.mmcr0 then
      set_PMU_excp_timer env now
    else env

end P8

/-!
Shared lemmas: frame properties of `sprGet`/`sprSet` and single-bit mask
arithmetic used by the MMCR0 bit manipulations of the timer callback.
-/

/-- `sprn` ranges over the six PMC SPR numbers. -/
abbrev validSpr (sprn : Nat) : Prop :=
  sprn = SPR_POWER_PMC1 ∨ sprn = SPR_POWER_PMC2 ∨ sprn = SPR_POWER_PMC3 ∨
  sprn = SPR_POWER_PMC4 ∨ sprn = SPR_POWER_PMC5 ∨ sprn = SPR_POWER_PMC6

theorem sprSet_mmcr0 (env : PMUState) (s v : Nat) :
    (sprSet env s v).mmcr0 = env.mmcr0 := by
  unfold sprSet; split_ifs <;> rfl

theorem sprSet_mmcr1 (env : PMUState) (s v : Nat) :
    (sprSet env s v).mmcr1 = env.mmcr1 := by
  unfold sprSet; split_ifs <;> rfl

theorem sprSet_ctrl (env : PMUState) (s v : Nat) :
    (sprSet env s v).ctrl = env.ctrl := by
  unfold sprSet; split_ifs <;> rfl

theorem sprSet_base (env : PMUState) (s v : Nat) :
    (sprSet env s v).pmu_base_time = env.pmu_base_time := by
  unfold sprSet; split_ifs <;> rfl

theorem sprSet_timer (env : PMUState) (s v : Nat) :
    (sprSet env s v).timer = env.timer := by
  unfold sprSet; split_ifs <;> rfl

theorem sprGet_sprSet_same (env : PMUState) (s v : Nat) (hs : validSpr s) :
    sprGet (sprSet env s v) s = v := by
  rcases hs with h|h|h|h|h|h <;> subst h <;> rfl

theorem sprSet_pmc1_ne (env : PMUState) (s v : Nat) (h : s ≠ SPR_POWER_PMC1) :
    (sprSet env s v).pmc1 = env.pmc1 := by
  unfold sprSet; split_ifs <;> simp_all

theorem sprSet_pmc2_ne (env : PMUState) (s v : Nat) (h : s ≠ SPR_POWER_PMC2) :
    (sprSet env s v).pmc2 = env.pmc2 := by
  unfold sprSet; split_ifs <;> simp_all

theorem sprSet_pmc3_ne (env : PMUState) (s v : Nat) (h : s ≠ SPR_POWER_PMC3) :
    (sprSet env s v).pmc3 = env.pmc3 := by
  unfold sprSet; split_ifs <;> simp_all

theorem sprSet_pmc4_ne (env : PMUState) (s v : Nat) (h : s ≠ SPR_POWER_PMC4) :
    (sprSet env s v).pmc4 = env.pmc4 := by
  unfold sprSet; split_ifs <;> simp_all

theorem sprSet_pmc5_ne (env : PMUState) (s v : Nat) (h : s ≠ SPR_POWER_PMC5) :
    (sprSet env s v).pmc5 = env.pmc5 := by
  unfold sprSet; split_ifs <;> simp_all

theorem sprSet_pmc6_ne (env : PMUState) (s v : Nat) (h : s ≠ SPR_POWER_PMC6) :
    (sprSet env s v).pmc6 = env.pmc6 := by
  unfold sprSet; split_ifs <;> simp_all

theorem sprGet_sprSet_ne (env : PMUState) (s s' v : Nat) (h : s' ≠ s) :
    sprGet (sprSet env s v) s' = sprGet env s' := by
  unfold sprGet
  split_ifs with h1 h2 h3 h4 h5 h6
  · rw [h1] at h; exact sprSet_pmc1_ne env s v (Ne.symm h)
  · rw [h2] at h; exact sprSet_pmc2_ne env s v (Ne.symm h)
  · rw [h3] at h; exact sprSet_pmc3_ne env s v (Ne.symm h)
  · rw [h4] at h; exact sprSet_pmc4_ne env s v (Ne.symm h)
  · rw [h5] at h; exact sprSet_pmc5_ne env s v (Ne.symm h)
  · rw [h6] at h; exact sprSet_pmc6_ne env s v (Ne.symm h)
  · rfl

theorem sprGet_mk_mmcr0 (env : PMUState) (m : Nat) (s : Nat) :
    sprGet { env with mmcr0 := m } s = sprGet env s := by
  unfold sprGet; split_ifs <;> rfl

theorem sprGet_mk_base (env : PMUState) (b : Nat) (s : Nat) :
    sprGet { env with pmu_base_time := b } s = sprGet env s := by
  unfold sprGet; split_ifs <;> rfl

theorem sprGet_mk_timer (env : PMUState) (t : Option Nat) (s : Nat) :
    sprGet { env with timer := t } s = sprGet env s := by
  unfold sprGet; split_ifs <;> rfl

/-- Bit `i < 64` of the all-ones 64-bit word is set. -/
theorem testBit_u64full_lt (i : Nat) (h : i < 64) :
    Nat.testBit U64FULL i = true := by
  have e : U64FULL = 2 ^ 64 - 1 := by norm_num [U64FULL]
  rw [e, Nat.testBit_two_pow_sub_one]
  simpa using h

/-- Clearing bit `j` (via and-not) and setting bit `m` leaves every other
bit `k < 64` unchanged. -/
theorem clear_set_bit_other (x j m k : Nat) (hk : k < 64) (hkj : k ≠ j)
    (hkm : k ≠ m) :
    ((x &&& (U64FULL ^^^ 2 ^ j)) ||| 2 ^ m) &&& 2 ^ k = x &&& 2 ^ k := by
  apply Nat.eq_of_testBit_eq
  intro i
  simp only [Nat.testBit_and, Nat.testBit_or, Nat.testBit_xor,
    Nat.testBit_two_pow]
  by_cases hik : k = i
  · subst hik
    rw [testBit_u64full_lt k hk]
    have h2 : (decide (j = k)) = false := by simp; omega
    have h3 : (decide (m = k)) = false := by simp; omega
    simp [h2, h3]
  · have h4 : (decide (k = i)) = false := by simp; omega
    simp [h4]

/-- After clearing bit `j < 64` and setting bit `m`, bit `m` reads as set. -/
theorem clear_set_bit_set (x j m : Nat) :
    (((x &&& (U64FULL ^^^ 2 ^ j)) ||| 2 ^ m) &&& 2 ^ m) = 2 ^ m := by
  apply Nat.eq_of_testBit_eq
  intro i
  simp only [Nat.testBit_and, Nat.testBit_or, Nat.testBit_two_pow]
  by_cases him : m = i
  · simp [him]
  · have : (decide (m = i)) = false := by simp; omega
    simp [this]

/-- After clearing bit `j < 64` and setting bit `m ≠ j`, bit `j` reads as
clear. -/
theorem clear_set_bit_clear (x j m : Nat) (hj : j ≠ m) (hj64 : j < 64) :
    (((x &&& (U64FULL ^^^ 2 ^ j)) ||| 2 ^ m) &&& 2 ^ j) = 0 := by
  apply Nat.eq_of_testBit_eq
  intro i
  simp only [Nat.testBit_and, Nat.testBit_or, Nat.testBit_xor,
    Nat.testBit_two_pow, Nat.zero_testBit]
  by_cases hij : j = i
  · subst hij
    rw [testBit_u64full_lt j hj64]
    have h3 : (decide (m = j)) = false := by simp; omega
    simp [h3]
  · have : (decide (j = i)) = false := by simp; omega
    simp [this]

theorem set_bit_other (x m k : Nat) (hkm : k ≠ m) :
    (x ||| 2 ^ m) &&& 2 ^ k = x &&& 2 ^ k := by
  apply Nat.eq_of_testBit_eq
  intro i
  simp only [Nat.testBit_land, Nat.testBit_lor]
  by_cases hik : i = k
  · subst hik
    have : Nat.testBit (2 ^ m) i = false := by
      simp [Nat.testBit_two_pow]; omega
    simp [this]
  · have : Nat.testBit (2 ^ k) i = false := by
      simp [Nat.testBit_two_pow]; omega
    simp [this]


namespace B3S

theorem get_PMC_event_congr (env env' : PMUState) (sprn : Nat)
    (h : env.mmcr1 = env'.mmcr1) :
    get_PMC_event env sprn = get_PMC_event env' sprn := by
  simp only [get_PMC_event, h]

theorem upp_mmcr0 (env : PMUState) (sprn d : Nat) :
    (update_programmable_PMC_reg env sprn d).mmcr0 = env.mmcr0 := by
  unfold update_programmable_PMC_reg update_PMC_PM_INST_CMPL
    update_PMC_PM_CYC update_PMC_PM_STALL
  dsimp only
  split_ifs <;> simp [sprSet_mmcr0]

theorem upp_mmcr1 (env : PMUState) (sprn d : Nat) :
    (update_programmable_PMC_reg env sprn d).mmcr1 = env.mmcr1 := by
  unfold update_programmable_PMC_reg update_PMC_PM_INST_CMPL
    update_PMC_PM_CYC update_PMC_PM_STALL
  dsimp only
  split_ifs <;> simp [sprSet_mmcr1]

theorem upp_ctrl (env : PMUState) (sprn d : Nat) :
    (update_programmable_PMC_reg env sprn d).ctrl = env.ctrl := by
  unfold update_programmable_PMC_reg update_PMC_PM_INST_CMPL
    update_PMC_PM_CYC update_PMC_PM_STALL
  dsimp only
  split_ifs <;> simp [sprSet_ctrl]

theorem upp_base (env : PMUState) (sprn d : Nat) :
    (update_programmable_PMC_reg env sprn d).pmu_base_time =
      env.pmu_base_time := by
  unfold update_programmable_PMC_reg update_PMC_PM_INST_CMPL
    update_PMC_PM_CYC update_PMC_PM_STALL
  dsimp only
  split_ifs <;> simp [sprSet_base]

theorem upp_timer (env : PMUState) (sprn d : Nat) :
    (update_programmable_PMC_reg env sprn d).timer = env.timer := by
  unfold update_programmable_PMC_reg update_PMC_PM_INST_CMPL
    update_PMC_PM_CYC update_PMC_PM_STALL
  dsimp only
  split_ifs <;> simp [sprSet_timer]

theorem upp_get_ne (env : PMUState) (sprn d s' : Nat) (h : s' ≠ sprn) :
    sprGet (update_programmable_PMC_reg env sprn d) s' = sprGet env s' := by
  unfold update_programmable_PMC_reg update_PMC_PM_INST_CMPL
    update_PMC_PM_CYC update_PMC_PM_STALL
  dsimp only
  split_ifs <;> simp [sprGet_sprSet_ne _ _ _ _ h]

/-- Behavior of one programmable-PMC flush at its own register: cycle
events add the delta, stall events add the scaled delta, everything else
leaves the register alone. -/
theorem upp_get_self (env : PMUState) (sprn d : Nat) (hv : validSpr sprn) :
    sprGet (update_programmable_PMC_reg env sprn d) sprn =
      (if get_PMC_event env sprn = 0x1E then u64 (sprGet env sprn + d)
       else if get_PMC_event env sprn = 0xA ∨ get_PMC_event env sprn = 0x6 ∨
               get_PMC_event env sprn = 0x16 ∨ get_PMC_event env sprn = 0x1C then
         u64 (sprGet env sprn +
           muldiv64 d (get_stall_ratio (get_PMC_event env sprn)) 100)
       else sprGet env sprn) := by
  unfold update_programmable_PMC_reg update_PMC_PM_INST_CMPL
    update_PMC_PM_CYC update_PMC_PM_STALL get_cycles
  dsimp only
  split_ifs with h1 h2 h3 <;>
    simp_all [sprGet_sprSet_same _ _ _ hv, get_stall_ratio]

/-- The value one Book3s programmable-PMC flush leaves in register `k`,
as a function of the pre-flush state. -/
def flushVal (env : PMUState) (d k : Nat) : Nat :=
  if get_PMC_event env k = 0x1E then u64 (sprGet env k + d)
  else if get_PMC_event env k = 0xA ∨ get_PMC_event env k = 0x6 ∨
          get_PMC_event env k = 0x16 ∨ get_PMC_event env k = 0x1C then
    u64 (sprGet env k + muldiv64 d (get_stall_ratio (get_PMC_event env k)) 100)
  else sprGet env k

theorem upp_get_self_val (env : PMUState) (d k : Nat) (hv : validSpr k) :
    sprGet (update_programmable_PMC_reg env k d) k = flushVal env d k := by
  rw [upp_get_self env k d hv]; rfl

theorem flushVal_congr (env env' : PMUState) (d k : Nat)
    (h1 : env.mmcr1 = env'.mmcr1) (h2 : sprGet env k = sprGet env' k) :
    flushVal env d k = flushVal env' d k := by
  unfold flushVal
  rw [get_PMC_event_congr env env' k h1, h2]

/-- Register `k ∈ PMC1..PMC4` after the four-step flush chain of
`update_PMCs`. -/
theorem chain4_get (env : PMUState) (d k : Nat)
    (hk : k = SPR_POWER_PMC1 ∨ k = SPR_POWER_PMC2 ∨ k = SPR_POWER_PMC3 ∨
          k = SPR_POWER_PMC4) :
    sprGet (update_programmable_PMC_reg
      (update_programmable_PMC_reg
        (update_programmable_PMC_reg
          (update_programmable_PMC_reg env SPR_POWER_PMC1 d)
          SPR_POWER_PMC2 d)
        SPR_POWER_PMC3 d)
      SPR_POWER_PMC4 d) k = flushVal env d k := by
  rcases hk with h|h|h|h <;> subst h
  · rw [upp_get_ne _ _ _ _ (by decide), upp_get_ne _ _ _ _ (by decide),
      upp_get_ne _ _ _ _ (by decide), upp_get_self_val _ _ _ (by decide)]
  · rw [upp_get_ne _ _ _ _ (by decide), upp_get_ne _ _ _ _ (by decide),
      upp_get_self_val _ _ _ (by decide)]
    exact flushVal_congr _ _ _ _ (upp_mmcr1 _ _ _)
      (upp_get_ne _ _ _ _ (by decide))
  · rw [upp_get_ne _ _ _ _ (by decide), upp_get_self_val _ _ _ (by decide)]
    exact flushVal_congr _ env _ _
      (by rw [upp_mmcr1, upp_mmcr1])
      (by rw [upp_get_ne _ _ _ _ (by decide), upp_get_ne _ _ _ _ (by decide)])
  · rw [upp_get_self_val _ _ _ (by decide)]
    exact flushVal_congr _ env _ _
      (by rw [upp_mmcr1, upp_mmcr1, upp_mmcr1])
      (by rw [upp_get_ne _ _ _ _ (by decide), upp_get_ne _ _ _ _ (by decide),
        upp_get_ne _ _ _ _ (by decide)])

theorem cyc_get_ne (env : PMUState) (s d s' : Nat) (h : s' ≠ s) :
    sprGet (update_PMC_PM_CYC env s d) s' = sprGet env s' := by
  unfold update_PMC_PM_CYC
  exact sprGet_sprSet_ne _ _ _ _ h

theorem cyc_get_same (env : PMUState) (s d : Nat) (hv : validSpr s) :
    sprGet (update_PMC_PM_CYC env s d) s = u64 (sprGet env s + d) := by
  unfold update_PMC_PM_CYC get_cycles
  exact sprGet_sprSet_same _ _ _ hv

theorem chain4_get_ne (env : PMUState) (d k : Nat)
    (h1 : k ≠ SPR_POWER_PMC1) (h2 : k ≠ SPR_POWER_PMC2)
    (h3 : k ≠ SPR_POWER_PMC3) (h4 : k ≠ SPR_POWER_PMC4) :
    sprGet (update_programmable_PMC_reg
      (update_programmable_PMC_reg
        (update_programmable_PMC_reg
          (update_programmable_PMC_reg env SPR_POWER_PMC1 d)
          SPR_POWER_PMC2 d)
        SPR_POWER_PMC3 d)
      SPR_POWER_PMC4 d) k = sprGet env k := by
  rw [upp_get_ne _ _ _ _ h4, upp_get_ne _ _ _ _ h3, upp_get_ne _ _ _ _ h2,
    upp_get_ne _ _ _ _ h1]

/-- Book3s `update_PMCs` at PMC1: flushed per its event when the FC14
group is running, untouched otherwise. -/
theorem update_PMCs_get_pmc1 (env : PMUState) (d : Nat) :
    sprGet (update_PMCs env d) SPR_POWER_PMC1 =
      if (env.mmcr0 &&& MMCR0_FC14) = 0 then flushVal env d SPR_POWER_PMC1
      else sprGet env SPR_POWER_PMC1 := by
  unfold update_PMCs update_PMC_PM_INST_CMPL
  dsimp only
  split_ifs
  · rw [cyc_get_ne _ _ _ _ (by decide)]
    exact chain4_get env d _ (by decide)
  · rw [cyc_get_ne _ _ _ _ (by decide)]
  · exact chain4_get env d _ (by decide)
  · rfl

/-- Book3s `update_PMCs` at PMC2: flushed per its event when the FC14
group is running, untouched otherwise. -/
theorem update_PMCs_get_pmc2 (env : PMUState) (d : Nat) :
    sprGet (update_PMCs env d) SPR_POWER_PMC2 =
      if (env.mmcr0 &&& MMCR0_FC14) = 0 then flushVal env d SPR_POWER_PMC2
      else sprGet env SPR_POWER_PMC2 := by
  unfold update_PMCs update_PMC_PM_INST_CMPL
  dsimp only
  split_ifs
  · rw [cyc_get_ne _ _ _ _ (by decide)]
    exact chain4_get env d _ (by decide)
  · rw [cyc_get_ne _ _ _ _ (by decide)]
  · exact chain4_get env d _ (by decide)
  · rfl

/-- Book3s `update_PMCs` at PMC3: flushed per its event when the FC14
group is running, untouched otherwise. -/
theorem update_PMCs_get_pmc3 (env : PMUState) (d : Nat) :
    sprGet (update_PMCs env d) SPR_POWER_PMC3 =
      if (env.mmcr0 &&& MMCR0_FC14) = 0 then flushVal env d SPR_POWER_PMC3
      else sprGet env SPR_POWER_PMC3 := by
  unfold update_PMCs update_PMC_PM_INST_CMPL
  dsimp only
  split_ifs
  · rw [cyc_get_ne _ _ _ _ (by decide)]
    exact chain4_get env d _ (by decide)
  · rw [cyc_get_ne _ _ _ _ (by decide)]
  · exact chain4_get env d _ (by decide)
  · rfl

/-- Book3s `update_PMCs` at PMC4: flushed per its event when the FC14
group is running, untouched otherwise. -/
theorem update_PMCs_get_pmc4 (env : PMUState) (d : Nat) :
    sprGet (update_PMCs env d) SPR_POWER_PMC4 =
      if (env.mmcr0 &&& MMCR0_FC14) = 0 then flushVal env d SPR_POWER_PMC4
      else sprGet env SPR_POWER_PMC4 := by
  unfold update_PMCs update_PMC_PM_INST_CMPL
  dsimp only
  split_ifs
  · rw [cyc_get_ne _ _ _ _ (by decide)]
    exact chain4_get env d _ (by decide)
  · rw [cyc_get_ne _ _ _ _ (by decide)]
  · exact chain4_get env d _ (by decide)
  · rfl

/-- Book3s `update_PMCs` never changes PMC5 (its instruction update is a
no-op). -/
theorem update_PMCs_get_pmc5 (env : PMUState) (d : Nat) :
    sprGet (update_PMCs env d) SPR_POWER_PMC5 = sprGet env SPR_POWER_PMC5 := by
  unfold update_PMCs update_PMC_PM_INST_CMPL
  dsimp only
  split_ifs
  · rw [cyc_get_ne _ _ _ _ (by decide)]
    exact chain4_get_ne env d _ (by decide) (by decide) (by decide) (by decide)
  · rw [cyc_get_ne _ _ _ _ (by decide)]
  · exact chain4_get_ne env d _ (by decide) (by decide) (by decide) (by decide)
  · rfl

/-- Book3s `update_PMCs` at PMC6: cycles are added when the FC56 group is
running. -/
theorem update_PMCs_get_pmc6 (env : PMUState) (d : Nat) :
    sprGet (update_PMCs env d) SPR_POWER_PMC6 =
      if (env.mmcr0 &&& MMCR0_FC56) = 0 then
        u64 (sprGet env SPR_POWER_PMC6 + d)
      else sprGet env SPR_POWER_PMC6 := by
  unfold update_PMCs update_PMC_PM_INST_CMPL
  dsimp only
  split_ifs
  · rw [cyc_get_same _ _ _ (by decide),
      chain4_get_ne env d _ (by decide) (by decide) (by decide) (by decide)]
  · rw [cyc_get_same _ _ _ (by decide)]
  · exact chain4_get_ne env d _ (by decide) (by decide) (by decide) (by decide)
  · rfl

/-- Book3s `update_PMCs` preserves the control fields. -/
theorem update_PMCs_mmcr0 (env : PMUState) (d : Nat) :
    (update_PMCs env d).mmcr0 = env.mmcr0 := by
  unfold update_PMCs update_PMC_PM_INST_CMPL update_PMC_PM_CYC
  dsimp only
  split_ifs <;> simp [sprSet_mmcr0, upp_mmcr0]

theorem update_PMCs_mmcr1 (env : PMUState) (d : Nat) :
    (update_PMCs env d).mmcr1 = env.mmcr1 := by
  unfold update_PMCs update_PMC_PM_INST_CMPL update_PMC_PM_CYC
  dsimp only
  split_ifs <;> simp [sprSet_mmcr1, upp_mmcr1]

theorem update_PMCs_ctrl (env : PMUState) (d : Nat) :
    (update_PMCs env d).ctrl = env.ctrl := by
  unfold update_PMCs update_PMC_PM_INST_CMPL update_PMC_PM_CYC
  dsimp only
  split_ifs <;> simp [sprSet_ctrl, upp_ctrl]

theorem update_PMCs_base (env : PMUState) (d : Nat) :
    (update_PMCs env d).pmu_base_time = env.pmu_base_time := by
  unfold update_PMCs update_PMC_PM_INST_CMPL update_PMC_PM_CYC
  dsimp only
  split_ifs <;> simp [sprSet_base, upp_base]

theorem update_PMCs_timer (env : PMUState) (d : Nat) :
    (update_PMCs env d).timer = env.timer := by
  unfold update_PMCs update_PMC_PM_INST_CMPL update_PMC_PM_CYC
  dsimp only
  split_ifs <;> simp [sprSet_timer, upp_timer]

end B3S


/-- Concrete state for the C4 witness: MMCR1 selects stall event 0xA
(ratio 25) on PMC1, all counters at 0, PMU running. -/
def C4env : PMUState :=
  { pmc1 := 0, pmc2 := 0, pmc3 := 0, pmc4 := 0, pmc5 := 0, pmc6 := 0,
    mmcr0 := 0, mmcr1 := 0xA <<< 24, ctrl := 0, pmu_base_time := 0,
    timer := none }

/-- C4: a counter resolved to a stall event has ratio 25 for event code
0x0A and ratio 5 for codes 0x06, 0x16 and 0x1C, and on every flush its
register increases by exactly `floor(elapsed_cycles * ratio / 100)`. -/
theorem C4_stall_ratio_flush (env : PMUState) (d sprn e : Nat)
    (hs : sprn = SPR_POWER_PMC1 ∨ sprn = SPR_POWER_PMC2 ∨
          sprn = SPR_POWER_PMC3 ∨ sprn = SPR_POWER_PMC4)
    (hrun : (env.mmcr0 &&& MMCR0_FC14) = 0)
    (hev : B3S.get_PMC_event env sprn = e)
    (hstall : e = 0xA ∨ e = 0x6 ∨ e = 0x16 ∨ e = 0x1C)
    (hnof : sprGet env sprn + d * B3S.get_stall_ratio e / 100 < U64MOD) :
    B3S.get_stall_ratio 0xA = 25 ∧ B3S.get_stall_ratio 0x6 = 5 ∧
    B3S.get_stall_ratio 0x16 = 5 ∧ B3S.get_stall_ratio 0x1C = 5 ∧
    sprGet (B3S.update_PMCs env d) sprn =
      sprGet env sprn + d * B3S.get_stall_ratio e / 100 := by
  refine ⟨rfl, rfl, rfl, rfl, ?_⟩
  have hmain : ∀ k : Nat, sprn = k →
      sprGet (B3S.update_PMCs env d) sprn =
        if (env.mmcr0 &&& MMCR0_FC14) = 0 then B3S.flushVal env d sprn
        else sprGet env sprn := by
    intro k hk
    rcases hs with h|h|h|h <;> subst h
    · exact B3S.update_PMCs_get_pmc1 env d
    · exact B3S.update_PMCs_get_pmc2 env d
    · exact B3S.update_PMCs_get_pmc3 env d
    · exact B3S.update_PMCs_get_pmc4 env d
  rw [hmain sprn rfl, if_pos hrun]
  unfold B3S.flushVal
  rw [hev]
  have hlt : d * B3S.get_stall_ratio e / 100 < U64MOD := by omega
  rcases hstall with h|h|h|h <;> subst h <;>
    norm_num [muldiv64, u64, B3S.get_cycles] <;>
    exact Nat.mod_eq_of_lt hnof

/-- Witness for C4: the stall counter with ratio 25 reads exactly 100
after a 400 ns flush while running. -/
theorem C4_stall_ratio_flush_witness :
    B3S.get_PMC_event C4env SPR_POWER_PMC1 = 0xA ∧
    sprGet (B3S.update_PMCs C4env 400) SPR_POWER_PMC1 = 100 := by
  refine ⟨by decide, ?_⟩
  have h := C4_stall_ratio_flush C4env 400 SPR_POWER_PMC1 0xA (Or.inl rfl)
    (by decide) (by decide) (Or.inl rfl) (by decide)
  rw [h.2.2.2.2]
  decide


/-- When the minuend is a true `uint64_t` and the subtrahend is no larger,
wrap-around subtraction is plain subtraction. -/
theorem u64sub_of_le (a b : Nat) (hb : b ≤ a) (ha : a < U64MOD) :
    u64sub a b = a - b := by
  unfold u64sub U64MOD at *
  omega

/-- `set_PMU_excp_timer` either leaves the state alone or only arms the
timer. -/
theorem B3S.set_PMU_excp_timer_shape (env : PMUState) (now : Nat) :
    B3S.set_PMU_excp_timer env now = env ∨
    ∃ t, B3S.set_PMU_excp_timer env now = { env with timer := some t } := by
  unfold B3S.set_PMU_excp_timer
  dsimp only
  split_ifs
  · exact Or.inl rfl
  · exact Or.inr ⟨_, rfl⟩

theorem B3S.set_PMU_excp_timer_base (env : PMUState) (now : Nat) :
    (B3S.set_PMU_excp_timer env now).pmu_base_time = env.pmu_base_time := by
  rcases B3S.set_PMU_excp_timer_shape env now with h | ⟨t, h⟩ <;> rw [h]

theorem B3S.set_PMU_excp_timer_mmcr0 (env : PMUState) (now : Nat) :
    (B3S.set_PMU_excp_timer env now).mmcr0 = env.mmcr0 := by
  rcases B3S.set_PMU_excp_timer_shape env now with h | ⟨t, h⟩ <;> rw [h]

theorem B3S.set_PMU_excp_timer_get (env : PMUState) (now s : Nat) :
    sprGet (B3S.set_PMU_excp_timer env now) s = sprGet env s := by
  rcases B3S.set_PMU_excp_timer_shape env now with h | ⟨t, h⟩ <;> rw [h]
  exact sprGet_mk_timer env (some t) s

/-- The all-zero PMU state used as a base for concrete witnesses. -/
def zeroPMU : PMUState :=
  { pmc1 := 0, pmc2 := 0, pmc3 := 0, pmc4 := 0, pmc5 := 0, pmc6 := 0,
    mmcr0 := 0, mmcr1 := 0, ctrl := 0, pmu_base_time := 0, timer := none }

/-- C1: a `helper_store_mmcr0` write flipping FC from 0 to 1 flushes every
running cycles-resolved counter by exactly the nanoseconds elapsed since
`pmu_base_time` and cancels the pending overflow timer; flipping FC from 1
to 0 sets `pmu_base_time` to now and, when a counter negative condition
enable bit is set in the written value, invokes the overflow scheduler on
the re-based state. -/
theorem C1_mmcr0_freeze_unfreeze (env : PMUState) (value now sprn : Nat) :
    (((env.mmcr0 &&& MMCR0_FC) = 0) → ((u64 value &&& MMCR0_FC) ≠ 0) →
      validSpr sprn →
      B3S.get_PMC_event env sprn = 0x1E →
      B3S.pmc_is_running { env with mmcr0 := u64 value } sprn = true →
      env.pmu_base_time ≤ now → now < U64MOD →
      sprGet env sprn + (now - env.pmu_base_time) < U64MOD →
      (sprGet (B3S.helper_store_mmcr0 env value now) sprn =
        sprGet env sprn + (now - env.pmu_base_time) ∧
       (B3S.helper_store_mmcr0 env value now).timer = none)) ∧
    (((env.mmcr0 &&& MMCR0_FC) ≠ 0) → ((u64 value &&& MMCR0_FC) = 0) →
      ((B3S.helper_store_mmcr0 env value now).pmu_base_time = now ∧
       (B3S.counter_negative_cond_enabled (u64 value) = true →
         B3S.helper_store_mmcr0 env value now =
           B3S.set_PMU_excp_timer
             { env with mmcr0 := u64 value, pmu_base_time := now } now))) := by
  constructor
  · intro h0 h1 hv hev hrun hble hnow hnof
    have hc : (decide ((env.mmcr0 &&& MMCR0_FC) ≠ 0)) = false := by
      simp [h0]
    have hn : (decide ((u64 value &&& MMCR0_FC) ≠ 0)) = true := by
      simp [h1]
    unfold B3S.helper_store_mmcr0
    dsimp only
    rw [hc, hn, if_pos (show (false : Bool) ≠ true by decide),
      if_pos (show (false : Bool) = false from rfl)]
    dsimp only
    rw [u64sub_of_le now env.pmu_base_time hble hnow]
    set env' : PMUState := { env with mmcr0 := u64 value } with henv'
    have hev' : B3S.get_PMC_event env' sprn = 0x1E := by
      rw [B3S.get_PMC_event_congr env' env sprn rfl]; exact hev
    have hget : sprGet env' sprn = sprGet env sprn := sprGet_mk_mmcr0 env _ sprn
    refine ⟨?_, rfl⟩
    rw [sprGet_mk_timer]
    rcases hv with h|h|h|h|h|h <;> subst h
    · rw [B3S.update_PMCs_get_pmc1 env' _, if_pos ?hrun1]
      case hrun1 =>
        simp only [B3S.pmc_is_running, henv'] at hrun
        simpa using hrun
      unfold B3S.flushVal
      rw [hev']
      norm_num [u64, hget]
      exact Nat.mod_eq_of_lt hnof
    · rw [B3S.update_PMCs_get_pmc2 env' _, if_pos ?hrun2]
      case hrun2 =>
        simp only [B3S.pmc_is_running, henv'] at hrun
        simpa using hrun
      unfold B3S.flushVal
      rw [hev']
      norm_num [u64, hget]
      exact Nat.mod_eq_of_lt hnof
    · rw [B3S.update_PMCs_get_pmc3 env' _, if_pos ?hrun3]
      case hrun3 =>
        simp only [B3S.pmc_is_running, henv'] at hrun
        simpa using hrun
      unfold B3S.flushVal
      rw [hev']
      norm_num [u64, hget]
      exact Nat.mod_eq_of_lt hnof
    · rw [B3S.update_PMCs_get_pmc4 env' _, if_pos ?hrun4]
      case hrun4 =>
        simp only [B3S.pmc_is_running, henv'] at hrun
        simpa using hrun
      unfold B3S.flushVal
      rw [hev']
      norm_num [u64, hget]
      exact Nat.mod_eq_of_lt hnof
    · rw [show B3S.get_PMC_event env SPR_POWER_PMC5 = 0x2 from rfl] at hev
      exact absurd hev (by decide)
    · rw [B3S.update_PMCs_get_pmc6 env' _, if_pos ?hrun6]
      case hrun6 =>
        simp only [B3S.pmc_is_running, henv'] at hrun
        simpa using hrun
      norm_num [u64, hget]
      exact Nat.mod_eq_of_lt hnof
  · intro h0 h1
    have hc : (decide ((env.mmcr0 &&& MMCR0_FC) ≠ 0)) = true := by
      simp [h0]
    have hn : (decide ((u64 value &&& MMCR0_FC) ≠ 0)) = false := by
      simp [h1]
    unfold B3S.helper_store_mmcr0
    dsimp only
    rw [hc, hn, if_pos (show (true : Bool) ≠ false by decide),
      if_neg (show ¬((true : Bool) = false) by decide)]
    constructor
    · split_ifs with hcond
      · exact B3S.set_PMU_excp_timer_base _ now
      · rfl
    · intro hcond
      rw [if_pos hcond]

/-- Witness for C1: a cycles counter at 0, unfrozen at t = 0 and frozen at
t = 100 ns, reads exactly 100, and the freeze cancels the timer. -/
theorem C1_mmcr0_freeze_unfreeze_witness :
    B3S.helper_store_mmcr0 { zeroPMU with mmcr0 := MMCR0_FC } 0 0 = zeroPMU ∧
    sprGet (B3S.helper_store_mmcr0 zeroPMU MMCR0_FC 100) SPR_POWER_PMC6 =
      100 ∧
    (B3S.helper_store_mmcr0 zeroPMU MMCR0_FC 100).timer = none := by
  have h := (C1_mmcr0_freeze_unfreeze zeroPMU MMCR0_FC 100 SPR_POWER_PMC6).1
    (by decide) (by decide) (by decide) (by decide) (by decide) (by decide)
    (by decide) (by decide)
  refine ⟨by decide, ?_, h.2⟩
  rw [h.1]
  decide


/-- The value an instruction batch of size `n` leaves in register `sprn`,
per the Book3s `helper_insns_inc` loop body. -/
def B3S.insnVal (env : PMUState) (n sprn : Nat) : Nat :=
  if B3S.pmc_counting_insns env sprn then
    (if COUNTER_NEGATIVE_VAL ≤ u64 (sprGet env sprn + n) ∧
        B3S.pmc_counter_negative_enabled env sprn = true then
      COUNTER_NEGATIVE_VAL
    else u64 (sprGet env sprn + n))
  else sprGet env sprn

theorem B3S.pmc_counting_insns_congr (env env' : PMUState) (sprn : Nat)
    (h0 : env.mmcr0 = env'.mmcr0) (h1 : env.mmcr1 = env'.mmcr1) :
    B3S.pmc_counting_insns env sprn = B3S.pmc_counting_insns env' sprn := by
  unfold B3S.pmc_counting_insns B3S.pmc_is_running B3S.get_PMC_event
  rw [h0, h1]

theorem B3S.pmc_cne_congr (env env' : PMUState) (sprn : Nat)
    (h0 : env.mmcr0 = env'.mmcr0) :
    B3S.pmc_counter_negative_enabled env sprn =
      B3S.pmc_counter_negative_enabled env' sprn := by
  unfold B3S.pmc_counter_negative_enabled
  rw [h0]

theorem B3S.insnVal_congr (env env' : PMUState) (n sprn : Nat)
    (h0 : env.mmcr0 = env'.mmcr0) (h1 : env.mmcr1 = env'.mmcr1)
    (h2 : sprGet env sprn = sprGet env' sprn) :
    B3S.insnVal env n sprn = B3S.insnVal env' n sprn := by
  unfold B3S.insnVal
  rw [B3S.pmc_counting_insns_congr env env' sprn h0 h1,
    B3S.pmc_cne_congr env env' sprn h0, h2]

theorem B3S.insns_step_mmcr0 (st : PMUState × Bool) (s n : Nat) :
    (B3S.insns_inc_step st s n).1.mmcr0 = st.1.mmcr0 := by
  unfold B3S.insns_inc_step
  dsimp only
  split_ifs <;> simp [sprSet_mmcr0]

theorem B3S.insns_step_mmcr1 (st : PMUState × Bool) (s n : Nat) :
    (B3S.insns_inc_step st s n).1.mmcr1 = st.1.mmcr1 := by
  unfold B3S.insns_inc_step
  dsimp only
  split_ifs <;> simp [sprSet_mmcr1]

theorem B3S.insns_step_base (st : PMUState × Bool) (s n : Nat) :
    (B3S.insns_inc_step st s n).1.pmu_base_time = st.1.pmu_base_time := by
  unfold B3S.insns_inc_step
  dsimp only
  split_ifs <;> simp [sprSet_base]

theorem B3S.insns_step_timer (st : PMUState × Bool) (s n : Nat) :
    (B3S.insns_inc_step st s n).1.timer = st.1.timer := by
  unfold B3S.insns_inc_step
  dsimp only
  split_ifs <;> simp [sprSet_timer]

theorem B3S.insns_step_get_ne (st : PMUState × Bool) (s n s' : Nat)
    (h : s' ≠ s) :
    sprGet (B3S.insns_inc_step st s n).1 s' = sprGet st.1 s' := by
  unfold B3S.insns_inc_step
  dsimp only
  split_ifs <;> simp [sprGet_sprSet_ne _ _ _ _ h]

theorem B3S.insns_step_get_self (st : PMUState × Bool) (s n : Nat)
    (hv : validSpr s) :
    sprGet (B3S.insns_inc_step st s n).1 s = B3S.insnVal st.1 n s := by
  unfold B3S.insns_inc_step B3S.insnVal
  dsimp only
  by_cases h1 : B3S.pmc_counting_insns st.1 s = true
  · rw [if_pos h1, if_pos h1]
    have hs1 : sprGet (sprSet st.1 s (u64 (sprGet st.1 s + n))) s =
        u64 (sprGet st.1 s + n) := sprGet_sprSet_same _ _ _ hv
    have he : B3S.pmc_counter_negative_enabled
        (sprSet st.1 s (u64 (sprGet st.1 s + n))) s =
        B3S.pmc_counter_negative_enabled st.1 s := by
      unfold B3S.pmc_counter_negative_enabled
      rw [sprSet_mmcr0]
    simp only [hs1, he]
    by_cases h2 : COUNTER_NEGATIVE_VAL ≤ u64 (sprGet st.1 s + n) ∧
        B3S.pmc_counter_negative_enabled st.1 s = true
    · rw [if_pos ?c1, if_pos h2]
      case c1 => exact ⟨h2.1, h2.2⟩
      exact sprGet_sprSet_same _ _ _ hv
    · rw [if_neg ?c2, if_neg h2]
      case c2 =>
        intro hcon
        exact h2 ⟨hcon.1, hcon.2⟩
      exact hs1
  · rw [if_neg h1, if_neg h1]

theorem B3S.insns_step_flag_mono (st : PMUState × Bool) (s n : Nat)
    (h : st.2 = true) :
    (B3S.insns_inc_step st s n).2 = true := by
  unfold B3S.insns_inc_step
  dsimp only
  split_ifs <;> simp [h]

theorem B3S.insns_step_flag_set (st : PMUState × Bool) (s n : Nat)
    (hv : validSpr s)
    (hc : B3S.pmc_counting_insns st.1 s = true)
    (hcl : COUNTER_NEGATIVE_VAL ≤ u64 (sprGet st.1 s + n))
    (he : B3S.pmc_counter_negative_enabled st.1 s = true) :
    (B3S.insns_inc_step st s n).2 = true := by
  unfold B3S.insns_inc_step
  dsimp only
  rw [if_pos hc]
  have hs1 : sprGet (sprSet st.1 s (u64 (sprGet st.1 s + n))) s =
      u64 (sprGet st.1 s + n) := sprGet_sprSet_same _ _ _ hv
  have he2 : B3S.pmc_counter_negative_enabled
      (sprSet st.1 s (u64 (sprGet st.1 s + n))) s = true := by
    unfold B3S.pmc_counter_negative_enabled
    rw [sprSet_mmcr0]
    exact he
  rw [if_pos ⟨by rw [hs1]; exact hcl, he2⟩]


theorem B3S.counting_implies_running (env : PMUState) (sprn : Nat)
    (hc : B3S.pmc_counting_insns env sprn = true) :
    B3S.pmc_is_running env sprn = true := by
  unfold B3S.pmc_counting_insns at hc
  by_cases hr : B3S.pmc_is_running env sprn = true
  · exact hr
  · rw [if_pos (by simpa using hr)] at hc
    exact absurd hc (by decide)

theorem B3S.counting_pmc14_running (env : PMUState) (sprn : Nat)
    (hlt : sprn < SPR_POWER_PMC5)
    (hc : B3S.pmc_counting_insns env sprn = true) :
    (env.mmcr0 &&& MMCR0_FC14) = 0 := by
  have hr := B3S.counting_implies_running env sprn hc
  unfold B3S.pmc_is_running at hr
  rw [if_pos hlt] at hr
  simpa using hr

/-- A counter whose resolved event is an instruction-counting code is not
advanced by `flushVal`. -/
theorem B3S.flushVal_of_insn_event (env : PMUState) (d k e : Nat)
    (hev : B3S.get_PMC_event env k = e)
    (he : e = 0x2 ∨ e = 0xF2 ∨ e = 0xFE) :
    B3S.flushVal env d k = sprGet env k := by
  unfold B3S.flushVal
  rw [hev]
  rcases he with h|h|h <;> subst h <;> norm_num

/-- The event disjunction encoded in a true `pmc_counting_insns` for a
programmable counter. -/
theorem B3S.counting_event_cases (env : PMUState) (sprn : Nat)
    (hs : sprn = SPR_POWER_PMC1 ∨ sprn = SPR_POWER_PMC2 ∨
          sprn = SPR_POWER_PMC3 ∨ sprn = SPR_POWER_PMC4)
    (hc : B3S.pmc_counting_insns env sprn = true) :
    B3S.get_PMC_event env sprn = 0x2 ∨ B3S.get_PMC_event env sprn = 0xF2 ∨
    B3S.get_PMC_event env sprn = 0xFE := by
  have hr := B3S.counting_implies_running env sprn hc
  unfold B3S.pmc_counting_insns at hc
  rw [if_neg (not_not_intro (by simpa using hr))] at hc
  rcases hs with h|h|h|h <;> subst h
  · rw [if_neg (by decide)] at hc
    dsimp only at hc
    rw [if_pos rfl] at hc
    rcases Bool.or_eq_true_iff.mp hc with h | h
    · rcases Bool.or_eq_true_iff.mp h with h2 | h2
      · exact Or.inl (of_decide_eq_true h2)
      · exact Or.inr (Or.inl (of_decide_eq_true h2))
    · exact Or.inr (Or.inr (of_decide_eq_true h))
  · rw [if_neg (by decide)] at hc
    dsimp only at hc
    rw [if_neg (by decide), if_pos (by decide)] at hc
    exact Or.inl (of_decide_eq_true hc)
  · rw [if_neg (by decide)] at hc
    dsimp only at hc
    rw [if_neg (by decide), if_pos (by decide)] at hc
    exact Or.inl (of_decide_eq_true hc)
  · rw [if_neg (by decide)] at hc
    dsimp only at hc
    rw [if_neg (by decide), if_neg (by decide), if_pos (by decide)] at hc
    rcases Bool.or_eq_true_iff.mp hc with h | h
    · exact Or.inl (of_decide_eq_true h)
    · -- event 0xFA is impossible after the Book3s 0xFA -> 0x2 remap
      exfalso
      have h2 := of_decide_eq_true h
      unfold B3S.get_PMC_event at h2
      rw [if_neg (by decide), if_neg (by decide), if_neg (by decide),
        if_pos rfl] at h2
      dsimp only at h2
      by_cases hf : (env.mmcr1 &&& MMCR1_PMC4SEL) = 0xFA
      · rw [if_pos hf] at h2
        exact absurd h2 (by decide)
      · rw [if_neg hf] at h2
        exact hf h2

/-- An instruction-counting PMC is left untouched by the cycle/stall flush
`update_PMCs`. -/
theorem B3S.counting_flush_invariant (env : PMUState) (d sprn : Nat)
    (hv : validSpr sprn) (hc : B3S.pmc_counting_insns env sprn = true) :
    sprGet (B3S.update_PMCs env d) sprn = sprGet env sprn := by
  have hr := B3S.counting_implies_running env sprn hc
  rcases hv with h|h|h|h|h|h <;> subst h
  · rw [B3S.update_PMCs_get_pmc1 env d,
      if_pos (B3S.counting_pmc14_running env SPR_POWER_PMC1 (by decide) hc)]
    exact B3S.flushVal_of_insn_event env d _ _ rfl
      (B3S.counting_event_cases env _ (by decide) hc)
  · rw [B3S.update_PMCs_get_pmc2 env d,
      if_pos (B3S.counting_pmc14_running env SPR_POWER_PMC2 (by decide) hc)]
    exact B3S.flushVal_of_insn_event env d _ _ rfl
      (B3S.counting_event_cases env _ (by decide) hc)
  · rw [B3S.update_PMCs_get_pmc3 env d,
      if_pos (B3S.counting_pmc14_running env SPR_POWER_PMC3 (by decide) hc)]
    exact B3S.flushVal_of_insn_event env d _ _ rfl
      (B3S.counting_event_cases env _ (by decide) hc)
  · rw [B3S.update_PMCs_get_pmc4 env d,
      if_pos (B3S.counting_pmc14_running env SPR_POWER_PMC4 (by decide) hc)]
    exact B3S.flushVal_of_insn_event env d _ _ rfl
      (B3S.counting_event_cases env _ (by decide) hc)
  · exact B3S.update_PMCs_get_pmc5 env d
  · exfalso
    unfold B3S.pmc_counting_insns at hc
    rw [if_neg (not_not_intro (by simpa using hr)), if_neg (by decide)] at hc
    dsimp only at hc
    rw [if_neg (by decide), if_neg (by decide), if_neg (by decide)] at hc
    exact absurd hc (by decide)

/-- The Book3s overflow-timer callback never changes an
instruction-counting PMC's register. -/
theorem B3S.cb_get_counting (env : PMUState) (now sprn : Nat)
    (hv : validSpr sprn) (hc : B3S.pmc_counting_insns env sprn = true) :
    sprGet (B3S.cpu_ppc_pmu_timer_cb env now).1 sprn = sprGet env sprn := by
  unfold B3S.cpu_ppc_pmu_timer_cb
  dsimp only
  split_ifs <;>
    first
    | rfl
    | (simp only [sprGet_mk_mmcr0]
       exact B3S.counting_flush_invariant env _ sprn hv hc)


theorem B3S.insns_loop_mmcr0 (env : PMUState) (n : Nat) :
    (B3S.insns_inc_loop env n).1.mmcr0 = env.mmcr0 := by
  unfold B3S.insns_inc_loop
  rw [B3S.insns_step_mmcr0, B3S.insns_step_mmcr0, B3S.insns_step_mmcr0,
    B3S.insns_step_mmcr0, B3S.insns_step_mmcr0]

theorem B3S.insns_loop_mmcr1 (env : PMUState) (n : Nat) :
    (B3S.insns_inc_loop env n).1.mmcr1 = env.mmcr1 := by
  unfold B3S.insns_inc_loop
  rw [B3S.insns_step_mmcr1, B3S.insns_step_mmcr1, B3S.insns_step_mmcr1,
    B3S.insns_step_mmcr1, B3S.insns_step_mmcr1]

/-- Invariant carried through the `helper_insns_inc` loop for a register
the current step does not touch. -/
def B3S.okSt (env : PMUState) (k : Nat) (st : PMUState × Bool) : Prop :=
  st.1.mmcr0 = env.mmcr0 ∧ st.1.mmcr1 = env.mmcr1 ∧
  sprGet st.1 k = sprGet env k

theorem B3S.okSt_init (env : PMUState) (k : Nat) (b : Bool) :
    B3S.okSt env k (env, b) :=
  ⟨rfl, rfl, rfl⟩

theorem B3S.okSt_step (env : PMUState) (k : Nat) (st : PMUState × Bool)
    (s n : Nat) (h : B3S.okSt env k st) (hne : k ≠ s) :
    B3S.okSt env k (B3S.insns_inc_step st s n) := by
  refine ⟨?_, ?_, ?_⟩
  · rw [B3S.insns_step_mmcr0]
    exact h.1
  · rw [B3S.insns_step_mmcr1]
    exact h.2.1
  · rw [B3S.insns_step_get_ne _ _ _ _ hne]
    exact h.2.2

/-- Register `sprn ∈ PMC1..PMC5` after the `helper_insns_inc` loop. -/
theorem B3S.insns_loop_get (env : PMUState) (n sprn : Nat)
    (hs : sprn = SPR_POWER_PMC1 ∨ sprn = SPR_POWER_PMC2 ∨
          sprn = SPR_POWER_PMC3 ∨ sprn = SPR_POWER_PMC4 ∨
          sprn = SPR_POWER_PMC5) :
    sprGet (B3S.insns_inc_loop env n).1 sprn = B3S.insnVal env n sprn := by
  unfold B3S.insns_inc_loop
  rcases hs with h|h|h|h|h <;> subst h
  · rw [B3S.insns_step_get_ne _ _ _ _ (by decide),
      B3S.insns_step_get_ne _ _ _ _ (by decide),
      B3S.insns_step_get_ne _ _ _ _ (by decide),
      B3S.insns_step_get_ne _ _ _ _ (by decide),
      B3S.insns_step_get_self _ _ _ (by decide)]
  · rw [B3S.insns_step_get_ne _ _ _ _ (by decide),
      B3S.insns_step_get_ne _ _ _ _ (by decide),
      B3S.insns_step_get_ne _ _ _ _ (by decide),
      B3S.insns_step_get_self _ _ _ (by decide)]
    have h := B3S.okSt_step env SPR_POWER_PMC2 _ SPR_POWER_PMC1 n
      (B3S.okSt_init env _ false) (by decide)
    exact B3S.insnVal_congr _ env n _ h.1 h.2.1 h.2.2
  · rw [B3S.insns_step_get_ne _ _ _ _ (by decide),
      B3S.insns_step_get_ne _ _ _ _ (by decide),
      B3S.insns_step_get_self _ _ _ (by decide)]
    have h := B3S.okSt_step env SPR_POWER_PMC3 _ SPR_POWER_PMC2 n
      (B3S.okSt_step env SPR_POWER_PMC3 _ SPR_POWER_PMC1 n
        (B3S.okSt_init env _ false) (by decide)) (by decide)
    exact B3S.insnVal_congr _ env n _ h.1 h.2.1 h.2.2
  · rw [B3S.insns_step_get_ne _ _ _ _ (by decide),
      B3S.insns_step_get_self _ _ _ (by decide)]
    have h := B3S.okSt_step env SPR_POWER_PMC4 _ SPR_POWER_PMC3 n
      (B3S.okSt_step env SPR_POWER_PMC4 _ SPR_POWER_PMC2 n
        (B3S.okSt_step env SPR_POWER_PMC4 _ SPR_POWER_PMC1 n
          (B3S.okSt_init env _ false) (by decide)) (by decide)) (by decide)
    exact B3S.insnVal_congr _ env n _ h.1 h.2.1 h.2.2
  · rw [B3S.insns_step_get_self _ _ _ (by decide)]
    have h := B3S.okSt_step env SPR_POWER_PMC5 _ SPR_POWER_PMC4 n
      (B3S.okSt_step env SPR_POWER_PMC5 _ SPR_POWER_PMC3 n
        (B3S.okSt_step env SPR_POWER_PMC5 _ SPR_POWER_PMC2 n
          (B3S.okSt_step env SPR_POWER_PMC5 _ SPR_POWER_PMC1 n
            (B3S.okSt_init env _ false) (by decide)) (by decide))
        (by decide)) (by decide)
    exact B3S.insnVal_congr _ env n _ h.1 h.2.1 h.2.2

/-- The loop flags an overflow when the batch pushes a counting PMC with
its counter negative condition enabled to or past the threshold. -/
theorem B3S.insns_loop_flag (env : PMUState) (n sprn : Nat)
    (hs : sprn = SPR_POWER_PMC1 ∨ sprn = SPR_POWER_PMC2 ∨
          sprn = SPR_POWER_PMC3 ∨ sprn = SPR_POWER_PMC4 ∨
          sprn = SPR_POWER_PMC5)
    (hc : B3S.pmc_counting_insns env sprn = true)
    (hcl : COUNTER_NEGATIVE_VAL ≤ u64 (sprGet env sprn + n))
    (he : B3S.pmc_counter_negative_enabled env sprn = true) :
    (B3S.insns_inc_loop env n).2 = true := by
  unfold B3S.insns_inc_loop
  have stepflag : ∀ st : PMUState × Bool, B3S.okSt env sprn st →
      validSpr sprn → (B3S.insns_inc_step st sprn n).2 = true := by
    intro st h hv
    refine B3S.insns_step_flag_set st sprn n hv ?_ ?_ ?_
    · rw [B3S.pmc_counting_insns_congr st.1 env sprn h.1 h.2.1]
      exact hc
    · rw [h.2.2]
      exact hcl
    · rw [B3S.pmc_cne_congr st.1 env sprn h.1]
      exact he
  rcases hs with h|h|h|h|h <;> subst h
  · exact B3S.insns_step_flag_mono _ _ _
      (B3S.insns_step_flag_mono _ _ _
        (B3S.insns_step_flag_mono _ _ _
          (B3S.insns_step_flag_mono _ _ _
            (stepflag _ (B3S.okSt_init env _ false) (by decide)))))
  · exact B3S.insns_step_flag_mono _ _ _
      (B3S.insns_step_flag_mono _ _ _
        (B3S.insns_step_flag_mono _ _ _
          (stepflag _
            (B3S.okSt_step env SPR_POWER_PMC2 _ SPR_POWER_PMC1 n
              (B3S.okSt_init env _ false) (by decide)) (by decide))))
  · exact B3S.insns_step_flag_mono _ _ _
      (B3S.insns_step_flag_mono _ _ _
        (stepflag _
          (B3S.okSt_step env SPR_POWER_PMC3 _ SPR_POWER_PMC2 n
            (B3S.okSt_step env SPR_POWER_PMC3 _ SPR_POWER_PMC1 n
              (B3S.okSt_init env _ false) (by decide)) (by decide))
          (by decide)))
  · exact B3S.insns_step_flag_mono _ _ _
      (stepflag _
        (B3S.okSt_step env SPR_POWER_PMC4 _ SPR_POWER_PMC3 n
          (B3S.okSt_step env SPR_POWER_PMC4 _ SPR_POWER_PMC2 n
            (B3S.okSt_step env SPR_POWER_PMC4 _ SPR_POWER_PMC1 n
              (B3S.okSt_init env _ false) (by decide)) (by decide))
          (by decide)) (by decide))
  · exact stepflag _
      (B3S.okSt_step env SPR_POWER_PMC5 _ SPR_POWER_PMC4 n
        (B3S.okSt_step env SPR_POWER_PMC5 _ SPR_POWER_PMC3 n
          (B3S.okSt_step env SPR_POWER_PMC5 _ SPR_POWER_PMC2 n
            (B3S.okSt_step env SPR_POWER_PMC5 _ SPR_POWER_PMC1 n
              (B3S.okSt_init env _ false) (by decide)) (by decide))
          (by decide)) (by decide)) (by decide)


/-- C2: an instruction-retirement batch of `n` instructions adds `n` to
every running instruction-counting PMC; when the addition reaches or
passes the threshold 0x80000000 with the counter negative condition
enabled, the register is clamped to exactly the threshold and the
overflow is flagged. -/
theorem C2_insns_batch (env : PMUState) (n now sprn : Nat)
    (hs : sprn = SPR_POWER_PMC1 ∨ sprn = SPR_POWER_PMC2 ∨
          sprn = SPR_POWER_PMC3 ∨ sprn = SPR_POWER_PMC4 ∨
          sprn = SPR_POWER_PMC5)
    (hcount : B3S.pmc_counting_insns env sprn = true)
    (hnof : sprGet env sprn + n < U64MOD) :
    ((sprGet env sprn + n < COUNTER_NEGATIVE_VAL ∨
        B3S.pmc_counter_negative_enabled env sprn = false) →
      sprGet (B3S.helper_insns_inc env n now).1 sprn =
        sprGet env sprn + n) ∧
    ((COUNTER_NEGATIVE_VAL ≤ sprGet env sprn + n ∧
        B3S.pmc_counter_negative_enabled env sprn = true) →
      (sprGet (B3S.helper_insns_inc env n now).1 sprn =
        COUNTER_NEGATIVE_VAL ∧
       (B3S.insns_inc_loop env n).2 = true)) := by
  have hv : validSpr sprn := by
    rcases hs with h|h|h|h|h <;> subst h <;> decide
  have hu : u64 (sprGet env sprn + n) = sprGet env sprn + n := by
    unfold u64
    exact Nat.mod_eq_of_lt hnof
  have hreg : sprGet (B3S.helper_insns_inc env n now).1 sprn =
      B3S.insnVal env n sprn := by
    unfold B3S.helper_insns_inc
    dsimp only
    by_cases hflag : (B3S.insns_inc_loop env n).2 = true
    · rw [if_pos hflag]
      have h0 : ({ (B3S.insns_inc_loop env n).1 with
          timer := none } : PMUState).mmcr0 = env.mmcr0 :=
        B3S.insns_loop_mmcr0 env n
      have h1 : ({ (B3S.insns_inc_loop env n).1 with
          timer := none } : PMUState).mmcr1 = env.mmcr1 :=
        B3S.insns_loop_mmcr1 env n
      have hc2 : B3S.pmc_counting_insns
          { (B3S.insns_inc_loop env n).1 with timer := none } sprn = true := by
        rw [B3S.pmc_counting_insns_congr _ env sprn h0 h1]
        exact hcount
      rw [B3S.cb_get_counting _ now sprn hv hc2, sprGet_mk_timer]
      exact B3S.insns_loop_get env n sprn hs
    · rw [if_neg hflag]
      exact B3S.insns_loop_get env n sprn hs
  constructor
  · intro hcase
    rw [hreg]
    unfold B3S.insnVal
    rw [if_pos hcount]
    rcases hcase with hlt | henb
    · rw [if_neg ?c1, hu]
      case c1 =>
        intro hcon
        rw [hu] at hcon
        omega
    · rw [if_neg ?c2, hu]
      case c2 =>
        intro hcon
        rw [henb] at hcon
        exact absurd hcon.2 (by decide)
  · intro hcase
    refine ⟨?_, B3S.insns_loop_flag env n sprn hs hcount
      (by rw [hu]; exact hcase.1) hcase.2⟩
    rw [hreg]
    unfold B3S.insnVal
    rw [if_pos hcount, if_pos ⟨by rw [hu]; exact hcase.1, hcase.2⟩]

/-- Witness for C2: a PMC5 counter starting at 0 reads exactly 22 after
batches of 10, 5 and 7 instructions while running. -/
theorem C2_insns_batch_witness :
    (B3S.helper_insns_inc (B3S.helper_insns_inc zeroPMU 10 0).1 5 0).1 =
      { zeroPMU with pmc5 := 15 } ∧
    sprGet (B3S.helper_insns_inc { zeroPMU with pmc5 := 15 } 7 0).1
      SPR_POWER_PMC5 = 22 := by
  refine ⟨by decide, ?_⟩
  have h := (C2_insns_batch { zeroPMU with pmc5 := 15 } 7 0 SPR_POWER_PMC5
    (by decide) (by decide) (by decide)).1 (Or.inl (by decide))
  rw [h]
  decide


/-- A clear counter negative condition enable bit makes
`pmc_counter_negative_enabled` false. -/
theorem B3S.cne_false_of_bit_clear (env : PMUState) (sprn : Nat)
    (hv : validSpr sprn)
    (hbit : (env.mmcr0 &&&
      (if sprn = SPR_POWER_PMC1 then MMCR0_PMC1CE else MMCR0_PMCjCE)) = 0) :
    B3S.pmc_counter_negative_enabled env sprn = false := by
  unfold B3S.pmc_counter_negative_enabled
  dsimp only
  rcases hv with h|h|h|h|h|h <;> subst h
  · rw [if_pos rfl] at hbit
    rw [if_pos rfl]
    simp [hbit]
  · rw [if_neg (by decide)] at hbit
    rw [if_neg (by decide), if_pos (by decide)]
    simp [hbit]
  · rw [if_neg (by decide)] at hbit
    rw [if_neg (by decide), if_pos (by decide)]
    simp [hbit]
  · rw [if_neg (by decide)] at hbit
    rw [if_neg (by decide), if_pos (by decide)]
    simp [hbit]
  · rw [if_neg (by decide)] at hbit
    rw [if_neg (by decide), if_neg (by decide), if_pos (by decide)]
    simp [hbit]
  · rw [if_neg (by decide)] at hbit
    rw [if_neg (by decide), if_neg (by decide), if_pos (by decide)]
    simp [hbit]

/-- C10: overflow notification is enabled for PMC1 exactly when PMC1CE is
set and the FC14 group runs, and for PMC2..PMC6 exactly when PMCjCE is set
with the counter's own freeze group running; a counter whose enable bit is
clear is never clamped on an instruction batch and never contributes a
deadline to the overflow timer. -/
theorem C10_overflow_enable (env : PMUState) :
    (B3S.pmc_counter_negative_enabled env SPR_POWER_PMC1 = true ↔
      ((env.mmcr0 &&& MMCR0_PMC1CE) ≠ 0 ∧ (env.mmcr0 &&& MMCR0_FC14) = 0)) ∧
    (∀ s, (s = SPR_POWER_PMC2 ∨ s = SPR_POWER_PMC3 ∨ s = SPR_POWER_PMC4) →
      (B3S.pmc_counter_negative_enabled env s = true ↔
        ((env.mmcr0 &&& MMCR0_PMCjCE) ≠ 0 ∧
         (env.mmcr0 &&& MMCR0_FC14) = 0))) ∧
    (∀ s, (s = SPR_POWER_PMC5 ∨ s = SPR_POWER_PMC6) →
      (B3S.pmc_counter_negative_enabled env s = true ↔
        ((env.mmcr0 &&& MMCR0_PMCjCE) ≠ 0 ∧
         (env.mmcr0 &&& MMCR0_FC56) = 0))) ∧
    (∀ sprn n, (sprn = SPR_POWER_PMC1 ∨ sprn = SPR_POWER_PMC2 ∨
        sprn = SPR_POWER_PMC3 ∨ sprn = SPR_POWER_PMC4 ∨
        sprn = SPR_POWER_PMC5) →
      (env.mmcr0 &&&
        (if sprn = SPR_POWER_PMC1 then MMCR0_PMC1CE else MMCR0_PMCjCE)) = 0 →
      sprGet (B3S.insns_inc_loop env n).1 sprn =
        (if B3S.pmc_counting_insns env sprn then u64 (sprGet env sprn + n)
         else sprGet env sprn)) ∧
    (∀ sprn, validSpr sprn →
      (env.mmcr0 &&&
        (if sprn = SPR_POWER_PMC1 then MMCR0_PMC1CE else MMCR0_PMCjCE)) = 0 →
      B3S.get_counter_neg_timeout env sprn = -1) := by
  refine ⟨?_, ?_, ?_, ?_, ?_⟩
  · unfold B3S.pmc_counter_negative_enabled
    dsimp only
    rw [if_pos rfl]
    simp [Bool.and_eq_true, decide_eq_true_eq]
  · intro s hcase
    unfold B3S.pmc_counter_negative_enabled
    dsimp only
    rcases hcase with h|h|h <;> subst h <;>
      rw [if_neg (by decide), if_pos (by decide)] <;>
      simp [Bool.and_eq_true, decide_eq_true_eq]
  · intro s hcase
    unfold B3S.pmc_counter_negative_enabled
    dsimp only
    rcases hcase with h|h <;> subst h <;>
      rw [if_neg (by decide), if_neg (by decide), if_pos (by decide)] <;>
      simp [Bool.and_eq_true, decide_eq_true_eq]
  · intro sprn n hs hbit
    have hv : validSpr sprn := by
      rcases hs with h|h|h|h|h <;> subst h <;> decide
    have henb := B3S.cne_false_of_bit_clear env sprn hv hbit
    rw [B3S.insns_loop_get env n sprn hs]
    unfold B3S.insnVal
    by_cases hc : B3S.pmc_counting_insns env sprn = true
    · rw [if_pos hc, if_pos hc, if_neg ?c1]
      case c1 =>
        intro hcon
        rw [henb] at hcon
        exact absurd hcon.2 (by decide)
    · rw [if_neg hc, if_neg hc]
  · intro sprn hv hbit
    have henb := B3S.cne_false_of_bit_clear env sprn hv hbit
    unfold B3S.get_counter_neg_timeout
    rw [if_pos (by simp [henb])]


/-- Concrete state for the C10 witness: PMC5 just below the threshold with
every counter negative enable bit clear. -/
def C10env : PMUState := { zeroPMU with pmc5 := 0x7FFFFFFF }

/-- Witness for C10: with the enable bits clear, a batch pushes PMC5 past
the threshold without clamping, and PMC5 contributes no timer deadline. -/
theorem C10_overflow_enable_witness :
    sprGet (B3S.insns_inc_loop C10env 5).1 SPR_POWER_PMC5 = 0x80000004 ∧
    B3S.get_counter_neg_timeout C10env SPR_POWER_PMC5 = -1 := by
  have h := C10_overflow_enable C10env
  constructor
  · rw [h.2.2.2.1 SPR_POWER_PMC5 5 (by decide) (by decide)]
    decide
  · exact h.2.2.2.2 SPR_POWER_PMC5 (by decide) (by decide)

theorem P8.get_PMC_event_congr_v8 (env env' : PMUState) (sprn : Nat)
    (h : env.mmcr1 = env'.mmcr1) :
    P8.get_PMC_event env sprn = P8.get_PMC_event env' sprn := by
  simp only [P8.get_PMC_event, h]

theorem P8.insns_step_mmcr0_v8 (env : PMUState) (s n : Nat) :
    (P8.insns_inc_step env s n).mmcr0 = env.mmcr0 := by
  unfold P8.insns_inc_step
  dsimp only
  split_ifs <;> simp [sprSet_mmcr0]

theorem P8.insns_step_mmcr1_v8 (env : PMUState) (s n : Nat) :
    (P8.insns_inc_step env s n).mmcr1 = env.mmcr1 := by
  unfold P8.insns_inc_step
  dsimp only
  split_ifs <;> simp [sprSet_mmcr1]

theorem P8.insns_step_ctrl (env : PMUState) (s n : Nat) :
    (P8.insns_inc_step env s n).ctrl = env.ctrl := by
  unfold P8.insns_inc_step
  dsimp only
  split_ifs <;> simp [sprSet_ctrl]

theorem P8.insns_step_get_ne_v8 (env : PMUState) (s n s' : Nat) (h : s' ≠ s) :
    sprGet (P8.insns_inc_step env s n) s' = sprGet env s' := by
  unfold P8.insns_inc_step
  dsimp only
  split_ifs with h1 h2 h3
  · rw [h2.1] at h
    exact sprGet_sprSet_ne _ _ _ _ h
  · rfl
  · exact sprGet_sprSet_ne _ _ _ _ h
  · rfl

/-- The loop body of `power8_pmu.c`'s `helper_insns_inc` at PMC4 with event
0xFA: the increment is gated by the CTRL run latch bit. -/
theorem P8.insns_step_pmc4_fa (env0 env : PMUState) (n : Nat)
    (h0 : env.mmcr0 = env0.mmcr0) (h1 : env.mmcr1 = env0.mmcr1)
    (h2 : env.ctrl = env0.ctrl)
    (h3 : sprGet env SPR_POWER_PMC4 = sprGet env0 SPR_POWER_PMC4)
    (hev : P8.get_PMC_event env0 SPR_POWER_PMC4 = 0xFA)
    (hrun : (env0.mmcr0 &&& MMCR0_FC14) = 0) :
    sprGet (P8.insns_inc_step env SPR_POWER_PMC4 n) SPR_POWER_PMC4 =
      if (env0.ctrl &&& CTRL_RUN) ≠ 0 then
        u64 (sprGet env0 SPR_POWER_PMC4 + n)
      else sprGet env0 SPR_POWER_PMC4 := by
  have hev' : P8.get_PMC_event env SPR_POWER_PMC4 = 0xFA := by
    rw [P8.get_PMC_event_congr_v8 env env0 _ h1]
    exact hev
  unfold P8.insns_inc_step
  dsimp only
  rw [hev']
  rw [if_pos ?hcnt]
  case hcnt =>
    unfold P8.pmc_counting_insns P8.pmc_is_running
    rw [if_neg ?hr]
    case hr =>
      rw [if_pos (by decide), h0]
      simp [hrun]
    rw [if_neg (by decide), if_neg (by decide), if_pos (by decide)]
    decide
  rw [if_pos ⟨rfl, rfl⟩, h2]
  split_ifs with hra
  · rw [sprGet_sprSet_same _ _ _ (by decide), h3]
  · exact h3

/-- C6: in `power8_pmu.c`, PMC4 resolved to event 0xFA advances by an
instruction batch exactly when the CTRL run latch bit is set; with the bit
clear its register is unchanged. -/
theorem C6_run_latch (env : PMUState) (n : Nat)
    (hev : P8.get_PMC_event env SPR_POWER_PMC4 = 0xFA)
    (hrun : (env.mmcr0 &&& MMCR0_FC14) = 0) :
    sprGet (P8.helper_insns_inc env n) SPR_POWER_PMC4 =
      if (env.ctrl &&& CTRL_RUN) ≠ 0 then
        u64 (sprGet env SPR_POWER_PMC4 + n)
      else sprGet env SPR_POWER_PMC4 := by
  unfold P8.helper_insns_inc
  rw [P8.insns_step_get_ne_v8 _ _ _ _ (by decide)]
  refine P8.insns_step_pmc4_fa env _ n ?h0 ?h1 ?h2 ?h3 hev hrun
  · rw [P8.insns_step_mmcr0_v8, P8.insns_step_mmcr0_v8, P8.insns_step_mmcr0_v8]
  · rw [P8.insns_step_mmcr1_v8, P8.insns_step_mmcr1_v8, P8.insns_step_mmcr1_v8]
  · rw [P8.insns_step_ctrl, P8.insns_step_ctrl, P8.insns_step_ctrl]
  · rw [P8.insns_step_get_ne_v8 _ _ _ _ (by decide),
      P8.insns_step_get_ne_v8 _ _ _ _ (by decide),
      P8.insns_step_get_ne_v8 _ _ _ _ (by decide)]

/-- Witness for C6: with MMCR1 selecting 0xFA on PMC4, a batch of 5 adds 5
when the run latch is set and nothing when it is clear. -/
theorem C6_run_latch_witness :
    sprGet (P8.helper_insns_inc { zeroPMU with mmcr1 := 0xFA, ctrl := 1 } 5)
      SPR_POWER_PMC4 = 5 ∧
    sprGet (P8.helper_insns_inc { zeroPMU with mmcr1 := 0xFA } 5)
      SPR_POWER_PMC4 = 0 := by
  constructor
  · rw [C6_run_latch { zeroPMU with mmcr1 := 0xFA, ctrl := 1 } 5 (by decide)
      (by decide)]
    decide
  · rw [C6_run_latch { zeroPMU with mmcr1 := 0xFA } 5 (by decide) (by decide)]
    decide


/-- `set_PMU_excp_timer` in `power8_pmu.c` either leaves the state alone or
only arms the timer. -/
theorem P8.set_PMU_excp_timer_shape_v8 (env : PMUState) (now : Nat) :
    P8.set_PMU_excp_timer env now = env ∨
    ∃ t, P8.set_PMU_excp_timer env now = { env with timer := some t } := by
  unfold P8.set_PMU_excp_timer
  dsimp only
  split_ifs
  · exact Or.inl rfl
  · exact Or.inr ⟨_, rfl⟩

theorem P8.set_PMU_excp_timer_base_v8 (env : PMUState) (now : Nat) :
    (P8.set_PMU_excp_timer env now).pmu_base_time = env.pmu_base_time := by
  rcases P8.set_PMU_excp_timer_shape_v8 env now with h | ⟨t, h⟩ <;> rw [h]

theorem P8.set_PMU_excp_timer_get_v8 (env : PMUState) (now s : Nat) :
    sprGet (P8.set_PMU_excp_timer env now) s = sprGet env s := by
  rcases P8.set_PMU_excp_timer_shape_v8 env now with h | ⟨t, h⟩ <;> rw [h]
  exact sprGet_mk_timer env (some t) s

theorem sprGet_mk_timer_base (env : PMUState) (t : Option Nat) (b s : Nat) :
    sprGet { env with timer := t, pmu_base_time := b } s = sprGet env s := by
  unfold sprGet
  split_ifs <;> rfl

theorem P8.upp_mmcr0_v8 (env : PMUState) (sprn d : Nat) :
    (P8.update_programmable_PMC_reg env sprn d).mmcr0 = env.mmcr0 := by
  unfold P8.update_programmable_PMC_reg P8.update_PMC_PM_CYC
  dsimp only
  split_ifs <;> simp [sprSet_mmcr0]

theorem P8.upp_mmcr1_v8 (env : PMUState) (sprn d : Nat) :
    (P8.update_programmable_PMC_reg env sprn d).mmcr1 = env.mmcr1 := by
  unfold P8.update_programmable_PMC_reg P8.update_PMC_PM_CYC
  dsimp only
  split_ifs <;> simp [sprSet_mmcr1]

theorem P8.upp_base_v8 (env : PMUState) (sprn d : Nat) :
    (P8.update_programmable_PMC_reg env sprn d).pmu_base_time =
      env.pmu_base_time := by
  unfold P8.update_programmable_PMC_reg P8.update_PMC_PM_CYC
  dsimp only
  split_ifs <;> simp [sprSet_base]

theorem P8.upp_timer_v8 (env : PMUState) (sprn d : Nat) :
    (P8.update_programmable_PMC_reg env sprn d).timer = env.timer := by
  unfold P8.update_programmable_PMC_reg P8.update_PMC_PM_CYC
  dsimp only
  split_ifs <;> simp [sprSet_timer]

theorem P8.update_PMCs_mmcr0_v8 (env : PMUState) (d : Nat) :
    (P8.update_PMCs env d).mmcr0 = env.mmcr0 := by
  unfold P8.update_PMCs P8.update_PMC_PM_CYC
  dsimp only
  split_ifs <;> simp [sprSet_mmcr0, P8.upp_mmcr0_v8]

theorem P8.update_PMCs_mmcr1_v8 (env : PMUState) (d : Nat) :
    (P8.update_PMCs env d).mmcr1 = env.mmcr1 := by
  unfold P8.update_PMCs P8.update_PMC_PM_CYC
  dsimp only
  split_ifs <;> simp [sprSet_mmcr1, P8.upp_mmcr1_v8]

theorem P8.update_PMCs_base_v8 (env : PMUState) (d : Nat) :
    (P8.update_PMCs env d).pmu_base_time = env.pmu_base_time := by
  unfold P8.update_PMCs P8.update_PMC_PM_CYC
  dsimp only
  split_ifs <;> simp [sprSet_base, P8.upp_base_v8]

theorem P8.update_PMCs_timer_v8 (env : PMUState) (d : Nat) :
    (P8.update_PMCs env d).timer = env.timer := by
  unfold P8.update_PMCs P8.update_PMC_PM_CYC
  dsimp only
  split_ifs <;> simp [sprSet_timer, P8.upp_timer_v8]

/-- C7: an explicit counter write via `helper_store_pmc` leaves exactly
the written value in the target register. When the PMU is frozen nothing
else changes; when running, the other counters are flushed first, the
baseline is reset to now, and the timer is cancelled and recomputed. -/
theorem C7_store_pmc (env : PMUState) (sprn value now : Nat)
    (hv : validSpr sprn) :
    (((env.mmcr0 &&& MMCR0_FC) ≠ 0) →
      (P8.helper_store_pmc env sprn value now = sprSet env sprn (u64 value) ∧
       sprGet (P8.helper_store_pmc env sprn value now) sprn = u64 value ∧
       (∀ s', s' ≠ sprn →
         sprGet (P8.helper_store_pmc env sprn value now) s' = sprGet env s') ∧
       (P8.helper_store_pmc env sprn value now).mmcr0 = env.mmcr0 ∧
       (P8.helper_store_pmc env sprn value now).pmu_base_time =
         env.pmu_base_time ∧
       (P8.helper_store_pmc env sprn value now).timer = env.timer)) ∧
    (((env.mmcr0 &&& MMCR0_FC) = 0) →
      (sprGet (P8.helper_store_pmc env sprn value now) sprn = u64 value ∧
       (P8.helper_store_pmc env sprn value now).pmu_base_time = now ∧
       (∀ s', s' ≠ sprn →
         sprGet (P8.helper_store_pmc env sprn value now) s' =
           sprGet (P8.update_PMCs env (u64sub now env.pmu_base_time)) s') ∧
       (P8.counter_negative_cond_enabled env.mmcr0 = false →
         (P8.helper_store_pmc env sprn value now).timer = none) ∧
       (P8.counter_negative_cond_enabled env.mmcr0 = true →
         P8.helper_store_pmc env sprn value now =
           P8.set_PMU_excp_timer
             { sprSet (P8.update_PMCs env (u64sub now env.pmu_base_time))
                 sprn (u64 value) with
               timer := none, pmu_base_time := now } now))) := by
  constructor
  · intro hfz
    have hb : (decide ((env.mmcr0 &&& MMCR0_FC) ≠ 0)) = true := by
      simp [hfz]
    unfold P8.helper_store_pmc
    dsimp only
    rw [hb, if_pos rfl]
    exact ⟨rfl, sprGet_sprSet_same env sprn _ hv,
      fun s' h => sprGet_sprSet_ne env sprn s' _ h,
      sprSet_mmcr0 env sprn _, sprSet_base env sprn _, sprSet_timer env sprn _⟩
  · intro hrn
    have hb : (decide ((env.mmcr0 &&& MMCR0_FC) ≠ 0)) = false := by
      simp [hrn]
    unfold P8.helper_store_pmc
    dsimp only
    rw [hb, if_neg (by decide)]
    have hm0 : (sprSet (P8.update_PMCs env (u64sub now env.pmu_base_time))
        sprn (u64 value)).mmcr0 = env.mmcr0 := by
      rw [sprSet_mmcr0]
      exact P8.update_PMCs_mmcr0_v8 env _
    by_cases hcond : P8.counter_negative_cond_enabled env.mmcr0 = true
    · rw [if_pos (by rw [hm0]; exact hcond)]
      refine ⟨?_, ?_, ?_, ?_, fun _ => rfl⟩
      · rw [P8.set_PMU_excp_timer_get_v8, sprGet_mk_timer_base,
          sprGet_sprSet_same _ _ _ hv]
      · rw [P8.set_PMU_excp_timer_base_v8]
      · intro s' h
        rw [P8.set_PMU_excp_timer_get_v8, sprGet_mk_timer_base,
          sprGet_sprSet_ne _ _ _ _ h]
      · intro hcon
        rw [hcon] at hcond
        exact absurd hcond (by decide)
    · rw [if_neg (by rw [hm0]; exact hcond)]
      refine ⟨?_, rfl, ?_, fun _ => rfl, ?_⟩
      · rw [sprGet_mk_timer_base, sprGet_sprSet_same _ _ _ hv]
      · intro s' h
        rw [sprGet_mk_timer_base, sprGet_sprSet_ne _ _ _ _ h]
      · intro hcon
        rw [hcon] at hcond
        exact absurd rfl hcond


/-- Witness for C7: a frozen-PMU write replaces only the target register. -/
theorem C7_store_pmc_witness :
    sprGet (P8.helper_store_pmc { zeroPMU with mmcr0 := MMCR0_FC, pmc2 := 7 }
      SPR_POWER_PMC3 42 0) SPR_POWER_PMC3 = 42 ∧
    sprGet (P8.helper_store_pmc { zeroPMU with mmcr0 := MMCR0_FC, pmc2 := 7 }
      SPR_POWER_PMC3 42 0) SPR_POWER_PMC2 = 7 ∧
    (P8.helper_store_pmc { zeroPMU with mmcr0 := MMCR0_FC, pmc2 := 7 }
      SPR_POWER_PMC3 42 0).pmu_base_time = 0 := by
  have h := (C7_store_pmc { zeroPMU with mmcr0 := MMCR0_FC, pmc2 := 7 }
    SPR_POWER_PMC3 42 0 (by decide)).1 (by decide)
  refine ⟨?_, ?_, ?_⟩
  · rw [h.2.1]
    decide
  · rw [h.2.2.1 SPR_POWER_PMC2 (by decide)]
    decide
  · rw [h.2.2.2.2.1]
    decide

/-- The MMCR0 transition applied by the timer callback when EBE is set:
the FCECE freeze transition, then the PMAE to PMAO alert transition. -/
def mmcr0AfterCb (m : Nat) : Nat :=
  let m1 := if (m &&& MMCR0_FCECE) ≠ 0 then
      (m &&& (U64FULL ^^^ MMCR0_FCECE)) ||| MMCR0_FC
    else m
  if (m1 &&& MMCR0_PMAE) ≠ 0 then
    (m1 &&& (U64FULL ^^^ MMCR0_PMAE)) ||| MMCR0_PMAO
  else m1

/-- MMCR0 of the Book3s timer callback when EBE is set: the FCECE and PMAE
transitions applied in order to the unchanged flushed MMCR0. -/
theorem B3S.cb_mmcr0_char (env : PMUState) (now : Nat)
    (h0 : (env.mmcr0 &&& MMCR0_EBE) ≠ 0) :
    (B3S.cpu_ppc_pmu_timer_cb env now).1.mmcr0 = mmcr0AfterCb env.mmcr0 := by
  unfold mmcr0AfterCb
  unfold B3S.cpu_ppc_pmu_timer_cb
  dsimp only
  rw [if_neg h0]
  dsimp only
  have hx := B3S.update_PMCs_mmcr0 env (u64sub now env.pmu_base_time)
  generalize hX : B3S.update_PMCs env (u64sub now env.pmu_base_time) = X at hx ⊢
  split_ifs <;> simp_all

theorem B3S.cb_get (env : PMUState) (now s : Nat)
    (h0 : (env.mmcr0 &&& MMCR0_EBE) ≠ 0) :
    sprGet (B3S.cpu_ppc_pmu_timer_cb env now).1 s =
      sprGet (B3S.update_PMCs env (u64sub now env.pmu_base_time)) s := by
  unfold B3S.cpu_ppc_pmu_timer_cb
  dsimp only
  rw [if_neg h0]
  dsimp only
  split_ifs <;> simp [sprGet_mk_mmcr0]

theorem B3S.cb_flag (env : PMUState) (now : Nat)
    (h0 : (env.mmcr0 &&& MMCR0_EBE) ≠ 0) :
    (B3S.cpu_ppc_pmu_timer_cb env now).2 = true := by
  unfold B3S.cpu_ppc_pmu_timer_cb
  dsimp only
  rw [if_neg h0]


theorem mmcr0_fcece_op_bit (x k : Nat) (hk : k < 64) (h1 : k ≠ 25)
    (h2 : k ≠ 31) :
    ((x &&& (U64FULL ^^^ MMCR0_FCECE)) ||| MMCR0_FC) &&& 2 ^ k =
      x &&& 2 ^ k := by
  have e1 : MMCR0_FCECE = 2 ^ 25 := by norm_num [MMCR0_FCECE]
  have e2 : MMCR0_FC = 2 ^ 31 := by norm_num [MMCR0_FC]
  rw [e1, e2]
  exact clear_set_bit_other x 25 31 k hk h1 h2

theorem mmcr0_pmae_op_bit (x k : Nat) (hk : k < 64) (h1 : k ≠ 26)
    (h2 : k ≠ 7) :
    ((x &&& (U64FULL ^^^ MMCR0_PMAE)) ||| MMCR0_PMAO) &&& 2 ^ k =
      x &&& 2 ^ k := by
  have e1 : MMCR0_PMAE = 2 ^ 26 := by norm_num [MMCR0_PMAE]
  have e2 : MMCR0_PMAO = 2 ^ 7 := by norm_num [MMCR0_PMAO]
  rw [e1, e2]
  exact clear_set_bit_other x 26 7 k hk h1 h2

/-- The FCECE/PMAE transition chain leaves the PMAE bit as the FCECE step
found it. -/
theorem mmcr0AfterCb_m1_pmae (m : Nat) :
    (if (m &&& MMCR0_FCECE) ≠ 0 then
        (m &&& (U64FULL ^^^ MMCR0_FCECE)) ||| MMCR0_FC
      else m) &&& MMCR0_PMAE = m &&& MMCR0_PMAE := by
  split_ifs with hf
  · have e : MMCR0_PMAE = 2 ^ 26 := by norm_num [MMCR0_PMAE]
    rw [e]
    exact mmcr0_fcece_op_bit m 26 (by norm_num) (by norm_num) (by norm_num)
  · rfl

/-- After the callback transitions, the FC bit is set when FCECE was set. -/
theorem mmcr0AfterCb_fc (m : Nat) (hf : (m &&& MMCR0_FCECE) ≠ 0) :
    mmcr0AfterCb m &&& MMCR0_FC = MMCR0_FC := by
  unfold mmcr0AfterCb
  have e1 : MMCR0_FCECE = 2 ^ 25 := by norm_num [MMCR0_FCECE]
  have e2 : MMCR0_FC = 2 ^ 31 := by norm_num [MMCR0_FC]
  dsimp only
  rw [if_pos hf]
  split_ifs with hp
  · rw [e2, mmcr0_pmae_op_bit _ 31 (by norm_num) (by norm_num) (by norm_num),
      ← e2]
    rw [e1, e2]
    exact clear_set_bit_set m 25 31
  · rw [e1, e2]
    exact clear_set_bit_set m 25 31

/-- After the callback transitions, the FCECE bit is cleared when it was
set. -/
theorem mmcr0AfterCb_fcece (m : Nat) (hf : (m &&& MMCR0_FCECE) ≠ 0) :
    mmcr0AfterCb m &&& MMCR0_FCECE = 0 := by
  unfold mmcr0AfterCb
  have e1 : MMCR0_FCECE = 2 ^ 25 := by norm_num [MMCR0_FCECE]
  have e2 : MMCR0_FC = 2 ^ 31 := by norm_num [MMCR0_FC]
  dsimp only
  rw [if_pos hf]
  split_ifs with hp
  · rw [e1, mmcr0_pmae_op_bit _ 25 (by norm_num) (by norm_num) (by norm_num),
      ← e1]
    rw [e1, e2]
    exact clear_set_bit_clear m 25 31 (by norm_num) (by norm_num)
  · rw [e1, e2]
    exact clear_set_bit_clear m 25 31 (by norm_num) (by norm_num)

/-- After the callback transitions, PMAO is set when PMAE was set. -/
theorem mmcr0AfterCb_pmao_set (m : Nat) (hp : (m &&& MMCR0_PMAE) ≠ 0) :
    mmcr0AfterCb m &&& MMCR0_PMAO = MMCR0_PMAO := by
  unfold mmcr0AfterCb
  dsimp only
  rw [if_pos (by rw [mmcr0AfterCb_m1_pmae]; exact hp)]
  have e1 : MMCR0_PMAE = 2 ^ 26 := by norm_num [MMCR0_PMAE]
  have e2 : MMCR0_PMAO = 2 ^ 7 := by norm_num [MMCR0_PMAO]
  rw [e1, e2]
  exact clear_set_bit_set _ 26 7

/-- After the callback transitions, PMAO is untouched when PMAE was clear:
the alert cannot be raised again until PMAE is re-armed. -/
theorem mmcr0AfterCb_pmao_keep (m : Nat) (hp : (m &&& MMCR0_PMAE) = 0) :
    mmcr0AfterCb m &&& MMCR0_PMAO = m &&& MMCR0_PMAO := by
  unfold mmcr0AfterCb
  dsimp only
  rw [if_neg (by rw [mmcr0AfterCb_m1_pmae]; simp [hp])]
  split_ifs with hf
  · have e : MMCR0_PMAO = 2 ^ 7 := by norm_num [MMCR0_PMAO]
    rw [e]
    exact mmcr0_fcece_op_bit m 7 (by norm_num) (by norm_num) (by norm_num)
  · rfl

/-- After the callback transitions, PMAE is always clear. -/
theorem mmcr0AfterCb_pmae (m : Nat) :
    mmcr0AfterCb m &&& MMCR0_PMAE = 0 := by
  unfold mmcr0AfterCb
  dsimp only
  split_ifs with hf hp hp
  · have e1 : MMCR0_PMAE = 2 ^ 26 := by norm_num [MMCR0_PMAE]
    have e2 : MMCR0_PMAO = 2 ^ 7 := by norm_num [MMCR0_PMAO]
    rw [e1, e2]
    exact clear_set_bit_clear _ 26 7 (by norm_num) (by norm_num)
  · omega
  · have e1 : MMCR0_PMAE = 2 ^ 26 := by norm_num [MMCR0_PMAE]
    have e2 : MMCR0_PMAO = 2 ^ 7 := by norm_num [MMCR0_PMAO]
    rw [e1, e2]
    exact clear_set_bit_clear _ 26 7 (by norm_num) (by norm_num)
  · omega


/-- C8: when the overflow timer fires with EBE clear, state and interrupt
are untouched. With EBE set the counters are flushed, the interrupt is
raised, FCECE (if set) turns into FC and is cleared, PMAE (if set) turns
into PMAO, PMAO is untouched when PMAE is clear, and PMAE is always clear
afterwards — so the alert transition happens at most once per arming of
PMAE. -/
theorem C8_timer_fire (env : PMUState) (now : Nat) :
    (((env.mmcr0 &&& MMCR0_EBE) = 0) →
      B3S.cpu_ppc_pmu_timer_cb env now = (env, false)) ∧
    (((env.mmcr0 &&& MMCR0_EBE) ≠ 0) →
      ((∀ s, sprGet (B3S.cpu_ppc_pmu_timer_cb env now).1 s =
          sprGet (B3S.update_PMCs env (u64sub now env.pmu_base_time)) s) ∧
       (B3S.cpu_ppc_pmu_timer_cb env now).2 = true ∧
       ((env.mmcr0 &&& MMCR0_FCECE) ≠ 0 →
         ((B3S.cpu_ppc_pmu_timer_cb env now).1.mmcr0 &&& MMCR0_FC) =
           MMCR0_FC ∧
         ((B3S.cpu_ppc_pmu_timer_cb env now).1.mmcr0 &&& MMCR0_FCECE) = 0) ∧
       ((env.mmcr0 &&& MMCR0_PMAE) ≠ 0 →
         ((B3S.cpu_ppc_pmu_timer_cb env now).1.mmcr0 &&& MMCR0_PMAO) =
           MMCR0_PMAO) ∧
       ((env.mmcr0 &&& MMCR0_PMAE) = 0 →
         ((B3S.cpu_ppc_pmu_timer_cb env now).1.mmcr0 &&& MMCR0_PMAO) =
           (env.mmcr0 &&& MMCR0_PMAO)) ∧
       ((B3S.cpu_ppc_pmu_timer_cb env now).1.mmcr0 &&& MMCR0_PMAE) = 0)) := by
  constructor
  · intro h0
    unfold B3S.cpu_ppc_pmu_timer_cb
    dsimp only
    rw [if_pos h0]
  · intro h0
    refine ⟨fun s => B3S.cb_get env now s h0, B3S.cb_flag env now h0,
      ?_, ?_, ?_, ?_⟩
    · intro hf
      rw [B3S.cb_mmcr0_char env now h0]
      exact ⟨mmcr0AfterCb_fc env.mmcr0 hf, mmcr0AfterCb_fcece env.mmcr0 hf⟩
    · intro hp
      rw [B3S.cb_mmcr0_char env now h0]
      exact mmcr0AfterCb_pmao_set env.mmcr0 hp
    · intro hp
      rw [B3S.cb_mmcr0_char env now h0]
      exact mmcr0AfterCb_pmao_keep env.mmcr0 hp
    · rw [B3S.cb_mmcr0_char env now h0]
      exact mmcr0AfterCb_pmae env.mmcr0

/-- Concrete state for the C8 witness: EBE, PMAE and FCECE all set. -/
def C8env : PMUState :=
  { zeroPMU with mmcr0 := MMCR0_EBE ||| MMCR0_PMAE ||| MMCR0_FCECE }

/-- Witness for C8: the first fire raises the interrupt, performs the
FCECE and PMAE transitions, and leaves PMAE clear, so a second fire keeps
PMAO as it is instead of raising the alert transition again. -/
theorem C8_timer_fire_witness :
    (B3S.cpu_ppc_pmu_timer_cb C8env 0).2 = true ∧
    ((B3S.cpu_ppc_pmu_timer_cb C8env 0).1.mmcr0 &&& MMCR0_FC) = MMCR0_FC ∧
    ((B3S.cpu_ppc_pmu_timer_cb C8env 0).1.mmcr0 &&& MMCR0_PMAO) =
      MMCR0_PMAO ∧
    ((B3S.cpu_ppc_pmu_timer_cb C8env 0).1.mmcr0 &&& MMCR0_PMAE) = 0 ∧
    ((B3S.cpu_ppc_pmu_timer_cb
        (B3S.cpu_ppc_pmu_timer_cb C8env 0).1 0).1.mmcr0 &&& MMCR0_PMAO) =
      ((B3S.cpu_ppc_pmu_timer_cb C8env 0).1.mmcr0 &&& MMCR0_PMAO) := by
  have h1 := (C8_timer_fire C8env 0).2 (by decide)
  refine ⟨h1.2.1, (h1.2.2.1 (by decide)).1, h1.2.2.2.1 (by decide),
    h1.2.2.2.2.2, ?_⟩
  have h2 := (C8_timer_fire (B3S.cpu_ppc_pmu_timer_cb C8env 0).1 0).2
    (by decide)
  exact h2.2.2.2.2.1 (by decide)


/-- C9: the elapsed-time computations perform raw `uint64_t` subtraction
`now - pmu_base_time` with no clamp to zero: with a baseline of 100 and a
clock reading of 50, the Book3s timer callback and the POWER8 freeze path
each advance the running cycles counter PMC6 by the wrapped value
2^64 - 50 instead of 0. -/
theorem C9_no_negative_clamp :
    sprGet (B3S.cpu_ppc_pmu_timer_cb
      { zeroPMU with mmcr0 := MMCR0_EBE, pmu_base_time := 100 } 50).1
      SPR_POWER_PMC6 = U64MOD - 50 ∧
    U64MOD - 50 = 18446744073709551566 ∧
    sprGet (P8.helper_store_mmcr0
      { zeroPMU with pmu_base_time := 100 } MMCR0_FC 50)
      SPR_POWER_PMC6 = U64MOD - 50 := by
  refine ⟨by decide, by decide, by decide⟩

/-- The Book3s event resolver never returns 0xFA for PMC4: the code
remaps it to 0x2. -/
theorem B3S.get_PMC_event_pmc4_ne_fa (env : PMUState) :
    B3S.get_PMC_event env SPR_POWER_PMC4 ≠ 0xFA := by
  unfold B3S.get_PMC_event
  rw [if_neg (by decide), if_neg (by decide), if_neg (by decide), if_pos rfl]
  dsimp only
  by_cases hf : (env.mmcr1 &&& MMCR1_PMC4SEL) = 0xFA
  · rw [if_pos hf]
    decide
  · rw [if_neg hf]
    exact hf

/-- Concrete state for the C5 counterexample: PMC1 resolves to event 0
(not in the fixed table), its register is at the threshold, PMC1CE is set,
the FC14 group runs, PMC2..PMC6 are all unable to contribute. -/
def C5env : PMUState :=
  { zeroPMU with
    pmc1 := COUNTER_NEGATIVE_VAL,
    mmcr0 := MMCR0_PMC1CE ||| MMCR0_FC56 ||| MMCR0_EBE ||| MMCR0_PMAE,
    pmu_base_time := 500 }

/-- Counterexample for C5 as stated: the event code 0 on PMC1 is not in
the fixed table, none of PMC2..PMC6 contributes a timeout, yet the timer
is armed immediately because of the Invalid-event counter, and the
resulting callback raises the interrupt and PMAO — the Invalid counter
does trigger an overflow. -/
theorem C5_counterexample :
    B3S.get_PMC_event C5env SPR_POWER_PMC1 = 0 ∧
    (B3S.get_counter_neg_timeout C5env SPR_POWER_PMC2 = -1 ∧
     B3S.get_counter_neg_timeout C5env SPR_POWER_PMC3 = -1 ∧
     B3S.get_counter_neg_timeout C5env SPR_POWER_PMC4 = -1 ∧
     B3S.get_counter_neg_timeout C5env SPR_POWER_PMC5 = -1 ∧
     B3S.get_counter_neg_timeout C5env SPR_POWER_PMC6 = -1) ∧
    C5env.timer = none ∧
    (B3S.set_PMU_excp_timer C5env 500).timer = some 500 ∧
    (B3S.cpu_ppc_pmu_timer_cb C5env 500).2 = true ∧
    ((B3S.cpu_ppc_pmu_timer_cb C5env 500).1.mmcr0 &&& MMCR0_PMAO) =
      MMCR0_PMAO := by
  exact ⟨by decide, ⟨by decide, by decide, by decide, by decide, by decide⟩,
    rfl, by decide, by decide, by decide⟩

/-- C5 (amended): counters 5 and 6 are hard-wired to instruction and cycle
counting for every MMCR1 value; a counter whose event code is outside the
fixed table {0x2, 0x1E, 0xA, 0x6, 0x16, 0x1C, 0xF2, 0xFE} never advances
on a flush or an instruction batch, and contributes no overflow-timer
deadline as long as its register is below the threshold (a register at or
above 0x80000000 still contributes an immediate timeout, because the
threshold check precedes the event dispatch). -/
theorem C5_event_resolution (env : PMUState) (d n sprn : Nat)
    (hs : sprn = SPR_POWER_PMC1 ∨ sprn = SPR_POWER_PMC2 ∨
          sprn = SPR_POWER_PMC3 ∨ sprn = SPR_POWER_PMC4)
    (hinv : ¬(B3S.get_PMC_event env sprn = 0x2 ∨
              B3S.get_PMC_event env sprn = 0x1E ∨
              B3S.get_PMC_event env sprn = 0xA ∨
              B3S.get_PMC_event env sprn = 0x6 ∨
              B3S.get_PMC_event env sprn = 0x16 ∨
              B3S.get_PMC_event env sprn = 0x1C ∨
              B3S.get_PMC_event env sprn = 0xF2 ∨
              B3S.get_PMC_event env sprn = 0xFE)) :
    B3S.get_PMC_event env SPR_POWER_PMC5 = 0x2 ∧
    B3S.get_PMC_event env SPR_POWER_PMC6 = 0x1E ∧
    sprGet (B3S.update_PMCs env d) sprn = sprGet env sprn ∧
    sprGet (B3S.insns_inc_loop env n).1 sprn = sprGet env sprn ∧
    (sprGet env sprn < COUNTER_NEGATIVE_VAL →
      B3S.get_counter_neg_timeout env sprn = -1) := by
  push_neg at hinv
  obtain ⟨h2, h1E, hA, h6, h16, h1C, hF2, hFE⟩ := hinv
  have hflush : B3S.flushVal env d sprn = sprGet env sprn := by
    unfold B3S.flushVal
    rw [if_neg h1E, if_neg (by tauto)]
  have hcf : B3S.pmc_counting_insns env sprn = false := by
    unfold B3S.pmc_counting_insns
    by_cases hr : B3S.pmc_is_running env sprn = true
    · rw [if_neg (not_not_intro (by simpa using hr))]
      rcases hs with h|h|h|h <;> subst h
      · rw [if_neg (by decide)]
        dsimp only
        rw [if_pos rfl]
        simp [h2, hF2, hFE]
      · rw [if_neg (by decide)]
        dsimp only
        rw [if_neg (by decide), if_pos (by decide)]
        simp [h2]
      · rw [if_neg (by decide)]
        dsimp only
        rw [if_neg (by decide), if_pos (by decide)]
        simp [h2]
      · rw [if_neg (by decide)]
        dsimp only
        rw [if_neg (by decide), if_neg (by decide), if_pos (by decide)]
        simp [h2, B3S.get_PMC_event_pmc4_ne_fa env]
    · rw [if_pos (by simpa using hr)]
  refine ⟨rfl, rfl, ?_, ?_, ?_⟩
  · rcases hs with h|h|h|h <;> subst h
    · rw [B3S.update_PMCs_get_pmc1 env d]
      split_ifs with hr
      · exact hflush
      · rfl
    · rw [B3S.update_PMCs_get_pmc2 env d]
      split_ifs with hr
      · exact hflush
      · rfl
    · rw [B3S.update_PMCs_get_pmc3 env d]
      split_ifs with hr
      · exact hflush
      · rfl
    · rw [B3S.update_PMCs_get_pmc4 env d]
      split_ifs with hr
      · exact hflush
      · rfl
  · rw [B3S.insns_loop_get env n sprn (by tauto)]
    unfold B3S.insnVal
    rw [if_neg (by simp [hcf])]
  · intro hlt
    unfold B3S.get_counter_neg_timeout
    by_cases he : B3S.pmc_counter_negative_enabled env sprn = true
    · rw [if_neg (by simp [he]), if_neg (by omega), if_pos (by tauto)]
      dsimp only
      rw [if_neg h1E, if_neg (by tauto)]
    · rw [if_pos (by simp [he])]

/-- Witness for the amended C5: with MMCR1 selecting code 0x33 on PMC1,
the counter ignores a 400 ns flush, a batch of 9, and contributes no
deadline. -/
theorem C5_event_resolution_witness :
    sprGet (B3S.update_PMCs { zeroPMU with mmcr1 := 0x33 <<< 24 } 400)
      SPR_POWER_PMC1 = 0 ∧
    sprGet (B3S.insns_inc_loop { zeroPMU with mmcr1 := 0x33 <<< 24 } 9).1
      SPR_POWER_PMC1 = 0 ∧
    B3S.get_counter_neg_timeout { zeroPMU with mmcr1 := 0x33 <<< 24 }
      SPR_POWER_PMC1 = -1 := by
  have h := C5_event_resolution { zeroPMU with mmcr1 := 0x33 <<< 24 } 400 9
    SPR_POWER_PMC1 (Or.inl rfl) (by decide)
  exact ⟨h.2.2.1, h.2.2.2.1, h.2.2.2.2 (by decide)⟩


/-- C3 claim-side notion: events with a time-based accumulation formula
(cycles or one of the stall codes). -/
def B3S.C3_timeBased (e : Nat) : Bool :=
  e = 0x1E || e = 0xA || e = 0x6 || e = 0x16 || e = 0x1C

/-- C3 claim-side eligibility, following the claim's wording: a time-based
event, notification enabled, and the counter's freeze group running. -/
def B3S.C3_eligible (env : PMUState) (sprn : Nat) : Bool :=
  B3S.C3_timeBased (B3S.get_PMC_event env sprn) &&
  (if sprn = SPR_POWER_PMC1 then decide ((env.mmcr0 &&& MMCR0_PMC1CE) ≠ 0)
   else decide ((env.mmcr0 &&& MMCR0_PMCjCE) ≠ 0)) &&
  (if sprn ≤ SPR_POWER_PMC4 then decide ((env.mmcr0 &&& MMCR0_FC14) = 0)
   else decide ((env.mmcr0 &&& MMCR0_FC56) = 0))

/-- Concrete state for the C3 counterexample: PMC1 holds the threshold
value with an instruction (not time-based) event, PMC1CE set, FC14 group
running, and no other counter able to contribute. -/
def C3env : PMUState :=
  { zeroPMU with
    pmc1 := COUNTER_NEGATIVE_VAL,
    mmcr0 := MMCR0_PMC1CE ||| MMCR0_FC56,
    mmcr1 := 0x2 <<< 24 }

/-- Counterexample for C3 as stated: no counter is eligible in the claim's
sense (time-based event, notification enabled, group running), yet
`set_PMU_excp_timer` arms the timer immediately, because the threshold
check precedes the event dispatch. -/
theorem C3_counterexample :
    (B3S.C3_eligible C3env SPR_POWER_PMC1 = false ∧
     B3S.C3_eligible C3env SPR_POWER_PMC2 = false ∧
     B3S.C3_eligible C3env SPR_POWER_PMC3 = false ∧
     B3S.C3_eligible C3env SPR_POWER_PMC4 = false ∧
     B3S.C3_eligible C3env SPR_POWER_PMC5 = false ∧
     B3S.C3_eligible C3env SPR_POWER_PMC6 = false) ∧
    C3env.timer = none ∧
    (B3S.set_PMU_excp_timer C3env 1000).timer = some 1000 := by
  exact ⟨⟨by decide, by decide, by decide, by decide, by decide, by decide⟩,
    rfl, by decide⟩

/-- C3 amended, claim-side: the duration a counter contributes to the
overflow-timer scan — zero as soon as the register is at or above the
threshold (for any event kind), otherwise the remaining distance to the
threshold in nanoseconds for time-based events on PMC1..PMC4 and PMC6,
and no contribution otherwise. -/
def B3S.C3_contribution (env : PMUState) (sprn : Nat) : Option Nat :=
  if (if sprn = SPR_POWER_PMC1 then (env.mmcr0 &&& MMCR0_PMC1CE) ≠ 0
      else (env.mmcr0 &&& MMCR0_PMCjCE) ≠ 0) ∧
     (if sprn ≤ SPR_POWER_PMC4 then (env.mmcr0 &&& MMCR0_FC14) = 0
      else (env.mmcr0 &&& MMCR0_FC56) = 0) then
    if COUNTER_NEGATIVE_VAL ≤ sprGet env sprn then some 0
    else if sprn ≠ SPR_POWER_PMC5 ∧
        B3S.C3_timeBased (B3S.get_PMC_event env sprn) = true then
      some ((COUNTER_NEGATIVE_VAL - sprGet env sprn) *
        (if B3S.get_PMC_event env sprn = 0x1E then 1
         else 100 / B3S.get_stall_ratio (B3S.get_PMC_event env sprn)))
    else none
  else none

def optToInt : Option Nat → Int
  | none => -1
  | some n => (n : Int)

def omin : Option Nat → Option Nat → Option Nat
  | none, b => b
  | some x, none => some x
  | some x, some y => some (min x y)

/-- The Book3s enable predicate matches the claim-side enable/running
condition pair. -/
theorem B3S.cne_iff (env : PMUState) (sprn : Nat) (hv : validSpr sprn) :
    B3S.pmc_counter_negative_enabled env sprn = true ↔
      ((if sprn = SPR_POWER_PMC1 then (env.mmcr0 &&& MMCR0_PMC1CE) ≠ 0
        else (env.mmcr0 &&& MMCR0_PMCjCE) ≠ 0) ∧
       (if sprn ≤ SPR_POWER_PMC4 then (env.mmcr0 &&& MMCR0_FC14) = 0
        else (env.mmcr0 &&& MMCR0_FC56) = 0)) := by
  unfold B3S.pmc_counter_negative_enabled
  dsimp only
  rcases hv with h|h|h|h|h|h <;> subst h
  · rw [if_pos rfl, if_pos rfl, if_pos (by decide)]
    simp [Bool.and_eq_true]
  · rw [if_neg (by decide), if_pos (by decide), if_neg (by decide),
      if_pos (by decide)]
    simp [Bool.and_eq_true]
  · rw [if_neg (by decide), if_pos (by decide), if_neg (by decide),
      if_pos (by decide)]
    simp [Bool.and_eq_true]
  · rw [if_neg (by decide), if_pos (by decide), if_neg (by decide),
      if_pos (by decide)]
    simp [Bool.and_eq_true]
  · rw [if_neg (by decide), if_neg (by decide), if_pos (by decide),
      if_neg (by decide), if_neg (by decide)]
    simp [Bool.and_eq_true]
  · rw [if_neg (by decide), if_neg (by decide), if_pos (by decide),
      if_neg (by decide), if_neg (by decide)]
    simp [Bool.and_eq_true]

theorem muldiv64_1e9_id (x : Nat) (hx : x < U64MOD) :
    muldiv64 (u64 x) 1000000000 1000000000 = x := by
  unfold muldiv64 u64
  rw [Nat.mod_eq_of_lt hx, Nat.mul_div_cancel _ (by norm_num)]
  exact Nat.mod_eq_of_lt hx

/-- The event dispatch of `get_counter_neg_timeout` on a programmable PMC
below the threshold equals the claim-side contribution. -/
theorem B3S.gcnt_eq_contribution_prog (env : PMUState) (k : Nat)
    (hk : k = SPR_POWER_PMC1 ∨ k = SPR_POWER_PMC2 ∨ k = SPR_POWER_PMC3 ∨
          k = SPR_POWER_PMC4)
    (hlt : sprGet env k < COUNTER_NEGATIVE_VAL) :
    (if B3S.get_PMC_event env k = 0x1E then B3S.get_CYC_timeout env k
     else if B3S.get_PMC_event env k = 0xA ∨ B3S.get_PMC_event env k = 0x6 ∨
             B3S.get_PMC_event env k = 0x16 ∨ B3S.get_PMC_event env k = 0x1C
       then B3S.get_stall_timeout env k (B3S.get_PMC_event env k)
     else -1) =
    optToInt (if k ≠ SPR_POWER_PMC5 ∧
        B3S.C3_timeBased (B3S.get_PMC_event env k) = true then
      some ((COUNTER_NEGATIVE_VAL - sprGet env k) *
        (if B3S.get_PMC_event env k = 0x1E then 1
         else 100 / B3S.get_stall_ratio (B3S.get_PMC_event env k)))
    else none) := by
  have hne5 : k ≠ SPR_POWER_PMC5 := by
    rcases hk with h|h|h|h <;> subst h <;> decide
  by_cases e1 : B3S.get_PMC_event env k = 0x1E
  · rw [if_pos e1, if_pos ⟨hne5, by rw [e1]; decide⟩, if_pos e1]
    unfold B3S.get_CYC_timeout
    simp only [optToInt]
    rw [if_neg (by omega)]
    omega
  · by_cases e2 : B3S.get_PMC_event env k = 0xA ∨
        B3S.get_PMC_event env k = 0x6 ∨ B3S.get_PMC_event env k = 0x16 ∨
        B3S.get_PMC_event env k = 0x1C
    · have htb : B3S.C3_timeBased (B3S.get_PMC_event env k) = true := by
        unfold B3S.C3_timeBased
        rcases e2 with h|h|h|h <;> rw [h] <;> decide
      rw [if_neg e1, if_pos e2, if_pos ⟨hne5, htb⟩, if_neg e1]
      unfold B3S.get_stall_timeout
      simp only [optToInt]
      rw [if_neg (by omega)]
      rcases e2 with h|h|h|h <;> rw [h] <;>
        norm_num [B3S.get_stall_ratio] <;>
        rw [muldiv64_1e9_id _
          (by simp only [COUNTER_NEGATIVE_VAL, U64MOD]; omega)] <;>
        push_cast <;> ring
    · rw [if_neg e1, if_neg e2, if_neg ?cfin]
      case cfin =>
        intro hcon
        have ht := hcon.2
        unfold B3S.C3_timeBased at ht
        simp only [Bool.or_eq_true, decide_eq_true_eq] at ht
        tauto
      rfl

/-- The code's per-counter timeout equals the claim-side contribution. -/
theorem B3S.gcnt_eq_contribution (env : PMUState) (sprn : Nat)
    (hv : validSpr sprn) :
    B3S.get_counter_neg_timeout env sprn =
      optToInt (B3S.C3_contribution env sprn) := by
  unfold B3S.get_counter_neg_timeout B3S.C3_contribution
  by_cases he : B3S.pmc_counter_negative_enabled env sprn = true
  · rw [if_neg (by simp [he]), if_pos ((B3S.cne_iff env sprn hv).mp he)]
    by_cases hge : COUNTER_NEGATIVE_VAL ≤ sprGet env sprn
    · rw [if_pos hge, if_pos hge]
      rfl
    · rw [if_neg hge, if_neg hge]
      rcases hv with h|h|h|h|h|h <;> subst h
      · rw [if_pos (by decide)]
        exact B3S.gcnt_eq_contribution_prog env SPR_POWER_PMC1 (by decide)
          (by omega)
      · rw [if_pos (by decide)]
        exact B3S.gcnt_eq_contribution_prog env SPR_POWER_PMC2 (by decide)
          (by omega)
      · rw [if_pos (by decide)]
        exact B3S.gcnt_eq_contribution_prog env SPR_POWER_PMC3 (by decide)
          (by omega)
      · rw [if_pos (by decide)]
        exact B3S.gcnt_eq_contribution_prog env SPR_POWER_PMC4 (by decide)
          (by omega)
      · rw [if_neg (by decide), if_neg (by decide),
          if_neg (fun hcon => hcon.1 rfl)]
        rfl
      · have he6 : B3S.get_PMC_event env SPR_POWER_PMC6 = 0x1E := rfl
        rw [if_neg (by decide), if_pos rfl,
          if_pos ⟨by decide, by rw [he6]; decide⟩]
        unfold B3S.get_CYC_timeout
        simp only [optToInt]
        rw [if_neg (by omega), if_pos he6]
        omega
  · rw [if_pos (by simp [he]),
      if_neg (fun hcon => he ((B3S.cne_iff env sprn hv).mpr hcon))]
    rfl


/-- One step of the minimum-timeout scan corresponds to `omin` on
optional durations. -/
theorem excp_step_omin (a b : Option Nat) :
    B3S.excp_timer_step (optToInt a) (optToInt b) = optToInt (omin a b) := by
  rcases a with _ | x <;> rcases b with _ | y <;>
    simp only [optToInt, omin] <;>
    unfold B3S.excp_timer_step <;>
    split_ifs <;> simp_all <;> omega

/-- The claim-side minimum contribution over the six counters, scanned in
the order of the C loop. -/
def B3S.C3_minContribution (env : PMUState) : Option Nat :=
  omin (omin (omin (omin (omin
    (B3S.C3_contribution env SPR_POWER_PMC1)
    (B3S.C3_contribution env SPR_POWER_PMC2))
    (B3S.C3_contribution env SPR_POWER_PMC3))
    (B3S.C3_contribution env SPR_POWER_PMC4))
    (B3S.C3_contribution env SPR_POWER_PMC5))
    (B3S.C3_contribution env SPR_POWER_PMC6)

/-- C3 (amended): the overflow-timer scan arms the timer at now plus the
minimum contribution over the six counters — where an enabled, running
counter contributes zero as soon as its register is at or above the
threshold regardless of its event kind, and otherwise only time-based
events on PMC1..PMC4 and PMC6 contribute their remaining distance to the
threshold in nanoseconds; when no counter contributes, the state (and in
particular the timer) is left untouched. -/
theorem C3_timer_arm_amended (env : PMUState) (now : Nat) :
    B3S.set_PMU_excp_timer env now =
      (match B3S.C3_minContribution env with
       | none => env
       | some d => { env with timer := some (now + d) }) := by
  unfold B3S.set_PMU_excp_timer
  dsimp only
  rw [B3S.gcnt_eq_contribution env SPR_POWER_PMC1 (by decide),
    B3S.gcnt_eq_contribution env SPR_POWER_PMC2 (by decide),
    B3S.gcnt_eq_contribution env SPR_POWER_PMC3 (by decide),
    B3S.gcnt_eq_contribution env SPR_POWER_PMC4 (by decide),
    B3S.gcnt_eq_contribution env SPR_POWER_PMC5 (by decide),
    B3S.gcnt_eq_contribution env SPR_POWER_PMC6 (by decide),
    show (-1 : Int) = optToInt none from rfl,
    excp_step_omin, excp_step_omin, excp_step_omin, excp_step_omin,
    excp_step_omin, excp_step_omin,
    show omin none (B3S.C3_contribution env SPR_POWER_PMC1) =
      B3S.C3_contribution env SPR_POWER_PMC1 from rfl]
  have hfold : omin (omin (omin (omin (omin
      (B3S.C3_contribution env SPR_POWER_PMC1)
      (B3S.C3_contribution env SPR_POWER_PMC2))
      (B3S.C3_contribution env SPR_POWER_PMC3))
      (B3S.C3_contribution env SPR_POWER_PMC4))
      (B3S.C3_contribution env SPR_POWER_PMC5))
      (B3S.C3_contribution env SPR_POWER_PMC6) =
      B3S.C3_minContribution env := rfl
  rw [hfold]
  rcases B3S.C3_minContribution env with _ | d
  · rw [if_pos rfl]
  · rw [if_neg (by simp only [optToInt]; omega)]
    simp [optToInt]
